import Mathlib

/-!
Verification of the Fin-Dept-App invoice / credit-note engine.

The source is a Google Apps Script project.  `src/dataService.js` contains the
row codec and record service (two concatenated revisions of the file; cited
line numbers select the revision embedded here), `src/businessService.js` the
validation layer, and the document service (`src/unnamed/part_001`) the
template renderer.  The shared `config.js` / `utils.js` of the project are not
in `src/`; the constants and host operations they provide (column indices,
`CONFIG.INVOICE_TABLE.MAX_ROWS`, Date handling, currency formatting) are
modelled from the spec as explicit parameters.

Spreadsheet cells are modelled by `JSVal` (string / number / date / undefined).
Numbers are modelled by `JQ`, an unreduced fraction of an `Int` numerator over
a positive `Nat` denominator, which represents the decimal values this app
manipulates exactly and keeps every operation kernel-computable.
-/

deriving instance DecidableEq for Except

namespace FinDept

/-- One decimal digit character; `digitChar d` is the character for `d < 10`. -/
def digitChar (d : Nat) : Char := Char.ofNat (48 + d)

/-- Decimal digit list of a natural number, fuel-indexed (fuel `n+1` suffices
for `n`).  Models JavaScript `Number.prototype.toString` on naturals. -/
def natToDigits : Nat → Nat → List Char
  | 0, _ => []
  | fuel + 1, n =>
    if n < 10 then [digitChar n]
    else natToDigits fuel (n / 10) ++ [digitChar (n % 10)]

/-- Decimal string of a natural number (JS `(n).toString()`). -/
def natToStr (n : Nat) : String := String.mk (natToDigits (n + 1) n)

/-- Decimal string of an integer. -/
def intToStr (i : Int) : String :=
  if i < 0 then "-" ++ natToStr i.natAbs else natToStr i.natAbs

/-- JavaScript `String.prototype.trim` (model: Unicode whitespace as
`Char.isWhitespace`). -/
def jsTrim (s : String) : String :=
  String.mk (((s.data.dropWhile Char.isWhitespace).reverse.dropWhile
    Char.isWhitespace).reverse)

/-- JavaScript `String.prototype.toLowerCase` (model: ASCII case folding). -/
def jsLower (s : String) : String := String.mk (s.data.map Char.toLower)

/-- JavaScript `String.prototype.toUpperCase` (model: ASCII case folding). -/
def jsUpper (s : String) : String := String.mk (s.data.map Char.toUpper)

/-- Whether `sub` occurs as a contiguous sublist of `l`. -/
def listIsInfix (sub : List Char) : List Char → Bool
  | [] => sub.isEmpty
  | c :: t => sub.isPrefixOf (c :: t) || listIsInfix sub t

/-- JavaScript `String.prototype.includes`. -/
def strIncludes (s sub : String) : Bool := listIsInfix sub.data s.data

/-- The single-quote character, written without an apostrophe token. -/
def apos : String := (Char.ofNat 39).toString

/-- Exact fraction: an `Int` numerator over a (by construction positive) `Nat`
denominator, left unreduced so that every arithmetic operation is a structural
`Int`/`Nat` computation.  Models the Apps Script number values of this app
(finite decimals) exactly. -/
structure JQ where
  num : Int
  den : Nat
deriving DecidableEq, Repr

/-- Embed a natural number. -/
def jqOfNat (n : Nat) : JQ := ⟨n, 1⟩

/-- Embed an integer. -/
def jqOfInt (i : Int) : JQ := ⟨i, 1⟩

/-- Fraction addition. -/
def jqAdd (a b : JQ) : JQ := ⟨a.num * b.den + b.num * a.den, a.den * b.den⟩

/-- Fraction multiplication. -/
def jqMul (a b : JQ) : JQ := ⟨a.num * b.num, a.den * b.den⟩

/-- Multiply by an integer. -/
def jqScale (s : Int) (a : JQ) : JQ := ⟨s * a.num, a.den⟩

/-- Divide by a positive natural number (the app only ever divides by `100`
and by powers of ten). -/
def jqDivNat (a : JQ) (n : Nat) : JQ := ⟨a.num, a.den * n⟩

/-- Multiply by `10 ^ d`. -/
def jqMulPow10 (a : JQ) (d : Nat) : JQ := ⟨a.num * 10 ^ d, a.den⟩

/-- Numeric equality of fractions (cross multiplication); this, not structural
equality, models JS number equality. -/
def jqEq (a b : JQ) : Bool := a.num * b.den = b.num * a.den

/-- Whether the fraction is zero (JS falsiness of a number). -/
def jqIsZero (a : JQ) : Bool := a.num = 0

/-- Value of a list of decimal digit characters. -/
def digitsVal (ds : List Char) : Nat :=
  ds.foldl (fun a c => 10 * a + (c.toNat - 48)) 0

/-- Parse a decimal literal prefix (sign, integer digits, optional fraction) of
a character list; returns the value and the unconsumed rest.  Models the
numeric-literal core shared by JS `parseFloat` / `ToNumber` (exponents never
occur in this app's data and are not modelled). -/
def parseDecimal (cs : List Char) : Option (JQ × List Char) :=
  let (sign, cs1) :=
    match cs with
    | c :: t =>
      if c = '-' then ((-1 : Int), t) else if c = '+' then ((1 : Int), t) else (1, cs)
    | [] => (1, cs)
  let ip := cs1.takeWhile Char.isDigit
  let cs2 := cs1.dropWhile Char.isDigit
  match cs2 with
  | c :: t =>
    if c = '.' then
      let fp := t.takeWhile Char.isDigit
      let cs3 := t.dropWhile Char.isDigit
      if ip.isEmpty && fp.isEmpty then none
      else
        some (⟨sign * (digitsVal ip * 10 ^ fp.length + digitsVal fp), 10 ^ fp.length⟩, cs3)
    else if ip.isEmpty then none else some (⟨sign * digitsVal ip, 1⟩, cs2)
  | [] => if ip.isEmpty then none else some (⟨sign * digitsVal ip, 1⟩, [])

/-- JavaScript `parseFloat`: skip leading whitespace, parse the longest numeric
prefix; `none` models `NaN`. -/
def jsParseFloat (s : String) : Option JQ :=
  (parseDecimal (s.data.dropWhile Char.isWhitespace)).map Prod.fst

/-- `parseFloat(s) || 0`: `NaN` (and `0`) collapse to `0`. -/
def parseFloatOr0 (s : String) : JQ := (jsParseFloat s).getD (jqOfNat 0)

/-- JavaScript `ToNumber` on a string: whitespace-trimmed, empty string is `0`,
otherwise the whole string must be a numeric literal; `none` models `NaN`. -/
def jsToNumber (s : String) : Option JQ :=
  let cs := ((s.data.dropWhile Char.isWhitespace).reverse.dropWhile
    Char.isWhitespace).reverse
  if cs.isEmpty then some (jqOfNat 0)
  else
    match parseDecimal cs with
    | some (v, []) => some v
    | _ => none

/-- JavaScript `parseInt` (base 10): sign and decimal-digit prefix; `none`
models `NaN`. -/
def jsParseInt (s : String) : Option Int :=
  let cs := s.data.dropWhile Char.isWhitespace
  let (sign, cs1) :=
    match cs with
    | c :: t =>
      if c = '-' then ((-1 : Int), t) else if c = '+' then ((1 : Int), t) else (1, cs)
    | [] => (1, cs)
  let ds := cs1.takeWhile Char.isDigit
  if ds.isEmpty then none else some (sign * digitsVal ds)

/-- Rounding used by `Number.prototype.toFixed` (ECMA-262: the closest scaled
integer, ties to the larger, i.e. `⌊q + 1/2⌋`), on the exact fraction. -/
def jqRoundHalfUp (q : JQ) : Int := Int.fdiv (2 * q.num + q.den) (2 * q.den)

/-- Left-pad a string with zeros to the given length. -/
def padZeros (s : String) (len : Nat) : String :=
  String.mk (List.replicate (len - s.length) '0') ++ s

/-- `toFixed` for a non-negative fraction. -/
def toFixedPos (digits : Nat) (q : JQ) : String :=
  let a : Nat := (jqRoundHalfUp (jqMulPow10 q digits)).toNat
  if digits = 0 then natToStr a
  else natToStr (a / 10 ^ digits) ++ "." ++ padZeros (natToStr (a % 10 ^ digits)) digits

/-- JavaScript `Number.prototype.toFixed` on the exact fraction value
(ECMA-262: a negative argument is formatted as the sign followed by the
formatting of its magnitude). -/
def toFixed (digits : Nat) (q : JQ) : String :=
  if q.num < 0 then "-" ++ toFixedPos digits ⟨-q.num, q.den⟩ else toFixedPos digits q

/-- Decimal string of a fraction whose denominator divides a power of ten,
with the least number of fraction digits; models JS `Number.prototype.toString`
on the finite decimals handled by the app (the fallback branch for other
fractions is never reached on app data). -/
def jsNumToStr (q : JQ) : String :=
  match (List.range 21).find? (fun d => (q.num * 10 ^ d) % (q.den : Int) = 0) with
  | some d => toFixed d q
  | none => intToStr q.num ++ "/" ++ natToStr q.den

/-- A spreadsheet cell / dynamic JS value as this app uses them: a string, a
number, a Date (kept abstract as its serialized text, see `HostOps`), or
`undefined` (an absent cell). -/
inductive JSVal
  | str (s : String)
  | num (q : JQ)
  | date (d : String)
  | undefinedJS
deriving DecidableEq, Repr

/-- JavaScript truthiness of a value ("" and 0 are falsy; a Date object is
always truthy). -/
def truthy : JSVal → Bool
  | .str s => !(s = "")
  | .num q => !(jqIsZero q)
  | .date _ => true
  | .undefinedJS => false

/-- JavaScript `toString` coercion of a value (a Date serializes to its
abstract text). -/
def jsToStr : JSVal → String
  | .str s => s
  | .num q => jsNumToStr q
  | .date d => d
  | .undefinedJS => "undefined"

/-- JavaScript strict equality `===` on the values this app compares.  Two
`date` cells are distinct object references in the source, hence never
strictly equal; the app never strictly compares dates. -/
def strictEq : JSVal → JSVal → Bool
  | .str s, .str t => s = t
  | .num a, .num b => jqEq a b
  | .undefinedJS, .undefinedJS => true
  | _, _ => false

/-- JavaScript loose equality `==` on the values this app compares (a string
is coerced to a number when compared with a number; `NaN` compares false). -/
def looseEq : JSVal → JSVal → Bool
  | .str s, .str t => s = t
  | .num a, .num b => jqEq a b
  | .num a, .str s => (jsToNumber s).elim false (fun v => jqEq a v)
  | .str s, .num a => (jsToNumber s).elim false (fun v => jqEq v a)
  | .undefinedJS, .undefinedJS => true
  | _, _ => false

/-- `row[i]`: reading past the end of a JS array yields `undefined`. -/
def cellAt (row : List JSVal) (i : Nat) : JSVal := row.getD i .undefinedJS

/-- `row[i]` at an optional index (a failed header lookup yields index
`undefined`, and `row[undefined]` is `undefined`). -/
def cellAtO (row : List JSVal) : Option Nat → JSVal
  | some i => cellAt row i
  | none => .undefinedJS

/-- `v || ""`. -/
def orEmptyStr (v : JSVal) : JSVal := if truthy v then v else .str ""

/-- `(v || "").toString().trim()`, the cell-normalization idiom of the data
service. -/
def cellStrTrim (row : List JSVal) (i : Nat) : String :=
  jsTrim (jsToStr (orEmptyStr (cellAt row i)))

/-- A cell is non-blank when it is truthy and its text does not trim to the
empty string (`cell && cell.toString().trim() !== ""`). -/
def cellNonBlank (v : JSVal) : Bool := truthy v && !(jsTrim (jsToStr v) = "")

/-- Lookup in the `headers.reduce((acc,h,i)=>{acc[h]=i; ...})` index map: the
index of the LAST occurrence of the key (later assignments overwrite). -/
def indexMapLookup (headers : List String) (key : String) : Option Nat :=
  (headers.foldl
    (fun (st : Nat × Option Nat) h =>
      (st.1 + 1, if h = key then some st.1 else st.2))
    (0, none)).2

/-- JavaScript `Array.prototype.indexOf` on a string array: index of the FIRST
occurrence. -/
def jsIndexOf (headers : List String) (key : String) : Option Nat :=
  headers.findIdx? (fun h => h = key)

/-- `row[i] = v` on a JS array when `i` is known to be in range (all writes in
the embedded code are range-guarded); out-of-range writes are dropped. -/
def listSet (row : List JSVal) (i : Nat) (v : JSVal) : List JSVal := row.set i v

/-- Modelled from the spec: the host operations used by the data service that
live outside `src/` — `new Date(...)` construction (dates are carried as their
abstract serialized text), `formatDateForInputFromUtils`, and
`formatCurrencyFromUtils`. -/
structure HostOps where
  newDate : String → String
  newDateYMD : String → String → String → String
  formatDateForInput : JSVal → String
  formatCurrency : String → String → String

/-- A concrete trivial instantiation of `HostOps`, used for closed witnesses. -/
def plainHost : HostOps :=
  { newDate := fun s => s
    newDateYMD := fun y m d => y ++ "-" ++ m ++ "-" ++ d
    formatDateForInput := jsToStr
    formatCurrency := fun v _ => v }

/-- Modelled from the spec: `CONFIG.INVOICE_TABLE.COLUMNS_PER_ROW` (the shared
config file is not in `src/`); §6 fixes six columns per invoice item row,
matching the six per-row headers the service itself creates. -/
def INVOICE_COLUMNS_PER_ROW : Nat := 6

/-- Modelled from the spec: `CONFIG.INVOICE_TABLE.MAX_ROWS` (value not in
`src/`).  The credit-note schema in the same service reserves 20 item rows
("Max 20 rows as requested"); theorems are parametric in the cap wherever it
matters and use 20 where a concrete schema is needed. -/
def INVOICE_MAX_ROWS : Nat := 20

/-- The 21 fixed invoice header columns, as created by `processFormFromData`
(dataService.js 335-357). -/
def invoiceBaseHeaders : List String :=
  ["ID", "Project Name", "Invoice Number", "Client Name", "Client Address",
   "Client Number", "Invoice Date", "Due Date", "Tax Rate (%)", "Subtotal",
   "Tax Amount", "Total", "Exchange Rate", "Currency", "Amount in EUR",
   "Bank Details 1", "Bank Details 2", "Our Company", "Comment",
   "Google Doc Link", "PDF Link"]

/-- The repeated item-block headers `Row {n} #|Service|Period|Quantity|
Rate/hour|Amount` (dataService.js 359-369). -/
def invoiceItemHeaders (maxRows : Nat) : List String :=
  (List.range maxRows).flatMap (fun i =>
    let n := natToStr (i + 1)
    ["Row " ++ n ++ " #", "Row " ++ n ++ " Service", "Row " ++ n ++ " Period",
     "Row " ++ n ++ " Quantity", "Row " ++ n ++ " Rate/hour", "Row " ++ n ++ " Amount"])

/-- The full invoice sheet header row. -/
def invoiceHeaders (maxRows : Nat) : List String :=
  invoiceBaseHeaders ++ invoiceItemHeaders maxRows

/-- `newRow[0] = pos` on a copy of a JS array (index 0 exists afterwards even
for an empty array). -/
def stampFirst (pos : String) : List String → List String
  | [] => [pos]
  | _ :: t => pos :: t

/-- `if (r[2]) r[2] = "'" + r[2].toString()`: prefix the period-like cell with
the literal text-escape marker when it is non-empty. -/
def escapePeriod (r : List String) : List String :=
  match r.get? 2 with
  | some p => if p = "" then r else r.set 2 (apos ++ p)
  | none => r

/-- Position-stamp and period-escape every item, in order (the per-item body
shared by `processFormFromData` 386-394 and the update paths). -/
def stampedItems (items : List (List String)) : List (List String) :=
  items.mapIdx (fun i r => escapePeriod (stampFirst (natToStr (i + 1)) r))

/-- The flattened item block written by the CREATE path `processFormFromData`
(dataService.js 385-394): stamped and escaped, but neither truncated nor
padded. -/
def processFormItemCells (items : List (List String)) : List String :=
  (stampedItems items).flatten

/-- The flattened item block written by `saveInvoiceData` (dataService.js
299-309): period-escaped only — the first cell is NOT position-stamped. -/
def saveInvoiceItemCells (items : List (List String)) : List String :=
  (items.map escapePeriod).flatten

/-- The flattened item block of the UPDATE path `updateInvoiceByIdFromData`
(dataService.js 735-744): stamped, escaped, then truncated to the item
capacity and blank-padded up to it. -/
def updateFlatItems (capacity : Nat) (items : List (List String)) : List String :=
  (stampedItems items).flatten.take capacity
    ++ List.replicate (capacity - (stampedItems items).flatten.length) ""

/-- `NaN.toFixed(d) = "NaN"`; otherwise format the parsed number. -/
def optToFixed (digits : Nat) : Option JQ → String
  | some q => toFixed digits q
  | none => "NaN"

/-- The invoice form submission, with the fields the embedded service reads
(all are strings from the web form; items are arrays of cell strings). -/
structure InvoiceFormData where
  projectName : String
  invoiceNumber : String
  clientName : String
  clientAddress : String
  clientNumber : String
  invoiceDate : String
  dueDate : String
  tax : String
  subtotal : String
  currency : String
  exchangeRate : String
  amountInEUR : String
  bankDetails1 : String
  bankDetails2 : String
  ourCompany : String
  comment : String
  items : List (List String)
  templateId : String
deriving Repr

/-- `subtotalNum` of `processFormFromData` (line 380). -/
def subtotalNum (d : InvoiceFormData) : JQ := parseFloatOr0 d.subtotal

/-- `taxRate` of `processFormFromData` (line 381). -/
def taxRateNum (d : InvoiceFormData) : JQ := parseFloatOr0 d.tax

/-- `taxAmount = (subtotalNum * taxRate) / 100` (line 382). -/
def taxAmountNum (d : InvoiceFormData) : JQ :=
  jqDivNat (jqMul (subtotalNum d) (taxRateNum d)) 100

/-- `totalAmount = subtotalNum + taxAmount` (line 383). -/
def totalAmountNum (d : InvoiceFormData) : JQ :=
  jqAdd (subtotalNum d) (taxAmountNum d)

/-- The 21 fixed cells of the flat row persisted by `processFormFromData`
(dataService.js 396-417), doc/PDF link cells blank. -/
def processFormBaseCells (H : HostOps) (uid : String) (d : InvoiceFormData) : List JSVal :=
  [JSVal.str uid,
   .str d.projectName,
   .str d.invoiceNumber,
   .str d.clientName,
   .str d.clientAddress,
   .str d.clientNumber,
   .date (H.newDate d.invoiceDate),
   .date (H.newDateYMD ((d.dueDate.splitOn "/").getD 2 "")
     ((d.dueDate.splitOn "/").getD 1 "") ((d.dueDate.splitOn "/").getD 0 "")),
   .str (toFixed 0 (taxRateNum d)),
   .str (toFixed 2 (subtotalNum d)),
   .str (toFixed 2 (taxAmountNum d)),
   .str (toFixed 2 (totalAmountNum d)),
   .str (if d.currency = "$" then optToFixed 4 (jsParseFloat d.exchangeRate) else ""),
   .str d.currency,
   .str (if d.currency = "$" then optToFixed 2 (jsParseFloat d.amountInEUR) else ""),
   .str d.bankDetails1,
   .str d.bankDetails2,
   .str d.ourCompany,
   .str d.comment,
   .str "",
   .str ""]

/-- The flat row persisted by the CREATE path `processFormFromData`
(dataService.js 396-418): the 21 fixed cells followed by the flattened item
block. -/
def processFormRow (H : HostOps) (uid : String) (d : InvoiceFormData) : List JSVal :=
  processFormBaseCells H uid d ++ (processFormItemCells d.items).map .str

/-- The variable-length logical item list parsed back from a stored flat row
(`getInvoiceDataByIdFromData`, dataService.js 222-229): `maxRows` fixed-offset
slots of six cells, keeping a slot only if some cell is non-blank after
trimming. -/
def decodeInvoiceItems (maxRows : Nat) (row : List JSVal) : List (List JSVal) :=
  (List.range maxRows).filterMap (fun i =>
    let item := (row.drop (21 + i * INVOICE_COLUMNS_PER_ROW)).take INVOICE_COLUMNS_PER_ROW
    if item.any cellNonBlank then some item else none)

/-- The record object returned by `getInvoiceDataByIdFromData`
(dataService.js 231-250). -/
structure InvoiceRecord where
  projectName : JSVal
  invoiceNumber : JSVal
  clientName : JSVal
  clientAddress : JSVal
  clientNumber : JSVal
  invoiceDate : String
  dueDate : String
  tax : JSVal
  subtotal : JSVal
  total : JSVal
  exchangeRate : JSVal
  currency : JSVal
  amountInEUR : JSVal
  bankDetails1 : JSVal
  bankDetails2 : JSVal
  ourCompany : JSVal
  comment : JSVal
  items : List (List JSVal)
deriving DecidableEq, Repr

/-- Decode one stored flat row against the live header row
(`getInvoiceDataByIdFromData`, dataService.js 204-208 and 231-250).  The
header-index map takes the last occurrence of a name, as the `reduce`
assignment does. -/
def decodeInvoiceRow (H : HostOps) (maxRows : Nat) (headers : List String)
    (row : List JSVal) : InvoiceRecord :=
  { projectName := cellAtO row (indexMapLookup headers "Project Name")
    invoiceNumber := cellAtO row (indexMapLookup headers "Invoice Number")
    clientName := cellAtO row (indexMapLookup headers "Client Name")
    clientAddress := cellAtO row (indexMapLookup headers "Client Address")
    clientNumber := cellAtO row (indexMapLookup headers "Client Number")
    invoiceDate := H.formatDateForInput (cellAtO row (indexMapLookup headers "Invoice Date"))
    dueDate := H.formatDateForInput (cellAtO row (indexMapLookup headers "Due Date"))
    tax := cellAtO row (indexMapLookup headers "Tax Rate (%)")
    subtotal := cellAtO row (indexMapLookup headers "Subtotal")
    total := cellAtO row (indexMapLookup headers "Total")
    exchangeRate := cellAtO row (indexMapLookup headers "Exchange Rate")
    currency := cellAtO row (indexMapLookup headers "Currency")
    amountInEUR := cellAtO row (indexMapLookup headers "Amount in EUR")
    bankDetails1 := cellAtO row (indexMapLookup headers "Bank Details 1")
    bankDetails2 := cellAtO row (indexMapLookup headers "Bank Details 2")
    ourCompany := cellAtO row (indexMapLookup headers "Our Company")
    comment := cellAtO row (indexMapLookup headers "Comment")
    items := decodeInvoiceItems maxRows row }

/-- `getInvoiceDataByIdFromData` (dataService.js 193-255): validate the id,
locate the row by STRICT equality on the ID cell, decode it; `none` models the
empty-object not-found result. -/
def getInvoiceDataByIdFromData (H : HostOps) (maxRows : Nat)
    (sheet : List (List JSVal)) (id : JSVal) : Option InvoiceRecord :=
  if !truthy id || jsTrim (jsToStr id) = "" then none
  else
    let headers := (sheet.headD []).map jsToStr
    match (sheet.drop 1).find? (fun r => strictEq (cellAtO r (indexMapLookup headers "ID")) id) with
    | none => none
    | some row => some (decodeInvoiceRow H maxRows headers row)

/-- `validateInvoiceData` (businessService.js 126-167): required fields
present and non-blank, numeric fields parseable, a non-empty items array, and
a template id. -/
def validateInvoiceData (d : InvoiceFormData) : Bool :=
  !(jsTrim d.projectName = "") && !(jsTrim d.invoiceNumber = "") &&
  !(jsTrim d.invoiceDate = "") && !(jsTrim d.dueDate = "") &&
  !(jsTrim d.subtotal = "") && !(jsTrim d.tax = "") &&
  !(!(d.subtotal = "") && (jsParseFloat d.subtotal).isNone) &&
  !(!(d.tax = "") && (jsParseFloat d.tax).isNone) &&
  !(d.items.isEmpty) &&
  !(d.templateId = "")

/-! ## Config resolver (`getProjectDetailsFromData`, `getProjectFolderId`) -/

/-- Modelled from the spec: the `CONFIG.COLUMNS` indices of the Lists
reference sheet (the shared config file is not in `src/`); the resolver's
behaviour is parametric in them. -/
structure ColumnsCfg where
  projectName : Nat
  templateNameCol : Nat
  templateIdCol : Nat
  bankShortCol : Nat
  bankFullCol : Nat
  templateName : Nat
  taxRate : Nat
  bankShort1 : Nat
  bankShort2 : Nat
  clientName : Nat
  clientNumberPart1 : Nat
  clientNumberPart2 : Nat
  clientAddress : Nat
  currency : Nat
  paymentDelay : Nat
  dayType : Nat
  ourCompany : Nat
deriving Repr

/-- The config-resolution failures of `getProjectDetailsFromData`; the
`ERROR_MESSAGES` constructors (not in `src/`) are modelled as payloads. -/
inductive CfgError
  | projectNotFound (name : String)
  | noTemplateName (name : String)
  | noTemplateFound (templateName : String)
  | noTemplateId
deriving DecidableEq, Repr

/-- The resolved project configuration (dataService.js 104-123). -/
structure ProjectConfig where
  clientName : JSVal
  clientNumber : String
  clientAddress : JSVal
  tax : JSVal
  currency : JSVal
  paymentDelay : Int
  dayType : String
  bankDetails1 : String
  bankDetails2 : String
  ourCompany : JSVal
  templateId : String
deriving DecidableEq, Repr

/-- Last-written-wins lookup in a `Map` built by successive `set` calls. -/
def mapGet (entries : List (String × String)) (k : String) : Option String :=
  entries.foldl (fun acc e => if e.1 = k then some e.2 else acc) none

/-- The template-name→id auxiliary map built while scanning the Lists sheet
(dataService.js 47-56): keys are lower-cased trimmed names. -/
def buildTemplateMap (cfg : ColumnsCfg) (values : List (List JSVal)) :
    List (String × String) :=
  (values.drop 1).filterMap (fun row =>
    let tn := cellStrTrim row cfg.templateNameCol
    let ti := cellStrTrim row cfg.templateIdCol
    if !(tn = "") && !(ti = "") then some (jsLower tn, ti) else none)

/-- The bank-short→full auxiliary map (dataService.js 58-65). -/
def buildBankMap (cfg : ColumnsCfg) (values : List (List JSVal)) :
    List (String × String) :=
  (values.drop 1).filterMap (fun row =>
    let short := cellStrTrim row cfg.bankShortCol
    let full := cellStrTrim row cfg.bankFullCol
    if !(short = "") && !(full = "") then some (short, full) else none)

/-- The first data row whose trimmed, lower-cased project-name cell equals the
canonicalized query (dataService.js 38-45). -/
def findProjectRow (cfg : ColumnsCfg) (values : List (List JSVal)) (key : String) :
    Option (List JSVal) :=
  (values.drop 1).find? (fun row => jsLower (cellStrTrim row cfg.projectName) = key)

/-- `getProjectDetailsFromData` (dataService.js 24-128): one scan builds both
auxiliary maps and finds the project row; tax is `×100` when the cell is a
number and `parseFloat`-ed otherwise, non-numeric tax resolving to the number
`0`; bank codes that fail to resolve yield the empty string.
`currencySymbols` models the static `CONFIG.CURRENCY_SYMBOLS` table (not in
`src/`). -/
def getProjectDetailsFromData (cfg : ColumnsCfg)
    (currencySymbols : String → Option String) (values : List (List JSVal))
    (projectName : String) : Except CfgError ProjectConfig :=
  (findProjectRow cfg values (jsLower (jsTrim projectName))).elim
    (.error (.projectNotFound projectName))
    (fun row =>
      if cellStrTrim row cfg.templateName = "" then .error (.noTemplateName projectName)
      else
        (mapGet (buildTemplateMap cfg values) (jsLower (cellStrTrim row cfg.templateName))).elim
          (.error (.noTemplateFound (cellStrTrim row cfg.templateName)))
          (fun selectedTemplateId =>
            .ok
              { clientName := orEmptyStr (cellAt row cfg.clientName)
                clientNumber := jsTrim (jsToStr (orEmptyStr (cellAt row cfg.clientNumberPart1))
                  ++ " " ++ jsToStr (orEmptyStr (cellAt row cfg.clientNumberPart2)))
                clientAddress := orEmptyStr (cellAt row cfg.clientAddress)
                tax := match (match cellAt row cfg.taxRate with
                    | .num q => some (jqScale 100 q)
                    | v => jsParseFloat (jsToStr v)) with
                  | none => .num (jqOfNat 0)
                  | some t => .str (toFixed 0 t)
                currency := match currencySymbols (jsToStr (cellAt row cfg.currency)) with
                  | some sym => if sym = "" then cellAt row cfg.currency else .str sym
                  | none => cellAt row cfg.currency
                paymentDelay := (jsParseInt (jsToStr (cellAt row cfg.paymentDelay))).getD 0
                dayType := jsUpper (cellStrTrim row cfg.dayType)
                bankDetails1 := (mapGet (buildBankMap cfg values) (cellStrTrim row cfg.bankShort1)).getD ""
                bankDetails2 := (mapGet (buildBankMap cfg values) (cellStrTrim row cfg.bankShort2)).getD ""
                ourCompany := orEmptyStr (cellAt row cfg.ourCompany)
                templateId := selectedTemplateId }))

/-- Characters matched by the file-id pattern `[-\w]{25,}`. -/
def isWordOrDash (c : Char) : Bool := c.isAlphanum || c = '_' || c = '-'

/-- Fuel-indexed scan for the first run of at least 25 identifier characters
(fuel bounds the number of characters inspected; `cs.length` suffices). -/
def firstLongRunAux : Nat → List Char → Option (List Char)
  | 0, _ => none
  | _ + 1, [] => none
  | fuel + 1, c :: rest =>
    if isWordOrDash c then
      let run := c :: rest.takeWhile isWordOrDash
      if 25 ≤ run.length then some run
      else firstLongRunAux fuel (rest.dropWhile isWordOrDash)
    else firstLongRunAux fuel rest

/-- First run of at least 25 identifier characters (the JS regex `[-\w]{25,}`:
leftmost start position, greedy match of the whole run). -/
def firstLongRun (cs : List Char) : Option (List Char) :=
  firstLongRunAux cs.length cs

/-- `extractFileIdFromUrl` (dataService.js 598-608): the first ≥25-character
identifier run of the URL; `none` models the thrown invalid-URL error. -/
def extractFileIdFromUrl (url : String) : Option String :=
  (firstLongRun url.data).map String.mk

/-- `getProjectFolderId` (documentService 303-342): case-insensitive trimmed
project lookup in the Lists sheet, folder id extracted from the column-M URL
cell by the `[-\w]{25,}` pattern, with fallback to the global
`CONFIG.FOLDER_ID` (modelled as `defaultFolderId`). -/
def getProjectFolderId (cfg : ColumnsCfg) (defaultFolderId : String)
    (values : List (List JSVal)) (projectName : String) : String :=
  if projectName = "" then defaultFolderId
  else
    match (values.drop 1).find? (fun row =>
        let rowName := cellStrTrim row cfg.projectName
        !(rowName = "") && jsLower rowName = jsLower (jsTrim projectName)) with
    | some row =>
      match firstLongRun (cellStrTrim row 12).data with
      | some run => String.mk run
      | none => defaultFolderId
    | none => defaultFolderId

/-! ## Template renderer (documentService `updateInvoiceTable`,
`updateCreditNoteTable`) -/

/-- The renderer failure of `updateInvoiceTable`
(`ERROR_MESSAGES.TABLE_NOT_FOUND`). -/
inductive RenderError
  | tableNotFound
deriving DecidableEq, Repr

/-- The exact six-column signature the spec prescribes for the invoice item
table. -/
def INVOICE_TABLE_SIGNATURE : List String :=
  ["#", "Services", "Period", "Quantity", "Rate/hour", "Amount"]

/-- Header-row match of `updateInvoiceTable` (documentService 128-146):
at least six cells whose FIRST SIX trimmed texts equal the signature,
case-sensitively — additional columns are not rejected. -/
def invoiceHeaderMatch (hs : List String) : Bool :=
  decide (6 ≤ hs.length) && (hs.getD 0 "" == "#") && (hs.getD 1 "" == "Services") &&
  (hs.getD 2 "" == "Period") && (hs.getD 3 "" == "Quantity") &&
  (hs.getD 4 "" == "Rate/hour") && (hs.getD 5 "" == "Amount")

/-- Header-row match of `updateCreditNoteTable` (documentService 490-500):
at least four cells; `#` or `№` first, then per-column case-insensitive
substring tests. -/
def creditNoteHeaderMatch (hs : List String) : Bool :=
  decide (4 ≤ hs.length) && ((hs.getD 0 "" == "#") || (hs.getD 0 "" == "№")) &&
  (strIncludes (jsLower (hs.getD 1 "")) "description" ||
    strIncludes (jsLower (hs.getD 1 "")) "описание" ||
    strIncludes (jsLower (hs.getD 1 "")) "services") &&
  (strIncludes (jsLower (hs.getD 2 "")) "period" ||
    strIncludes (jsLower (hs.getD 2 "")) "период") &&
  (strIncludes (jsLower (hs.getD 3 "")) "amount" ||
    strIncludes (jsLower (hs.getD 3 "")) "сумма")

/-- Trimmed header texts of a document table (its first row). -/
def tableHeaders (t : List (List String)) : List String := (t.headD []).map jsTrim

/-- `updateInvoiceTable` (documentService 123-179) on the document body's
tables: select the first matching table or fail with `TableNotFound`; clear
all its rows but the header; append one row per item, currency-formatting
columns 4 and 5. -/
def updateInvoiceTable (H : HostOps) (tables : List (List (List String)))
    (items : List (List String)) (currency : String) :
    Except RenderError (List (List (List String))) :=
  match tables.findIdx? (fun t => invoiceHeaderMatch (tableHeaders t)) with
  | none => .error .tableNotFound
  | some ti =>
    let t := tables.getD ti []
    let rendered := items.map (fun row => row.mapIdx (fun idx cell =>
      if idx = 4 || idx = 5 then (if cell = "" then "" else H.formatCurrency cell currency)
      else cell))
    .ok (tables.set ti (t.take 1 ++ rendered))

/-- `updateCreditNoteTable` (documentService 457-554): select the first
non-empty table whose headers loosely match; when none matches, log and return
the document unchanged (zero item rows written); otherwise clear and repopulate,
currency-formatting column 3. -/
def updateCreditNoteTable (H : HostOps) (tables : List (List (List String)))
    (items : List (List String)) (currency : String) : List (List (List String)) :=
  match tables.findIdx? (fun t => !(t.isEmpty) && creditNoteHeaderMatch (tableHeaders t)) with
  | none => tables
  | some ti =>
    let t := tables.getD ti []
    let rendered := items.map (fun row => row.mapIdx (fun idx cell =>
      if idx = 3 then (if cell = "" then "" else H.formatCurrency cell currency)
      else cell))
    tables.set ti (t.take 1 ++ rendered)

/-! ## Delete flow (`deleteInvoiceByIdFromData`) -/

/-- The live (non-trashed) Drive files, by file id. -/
structure DriveState where
  files : List String
deriving DecidableEq, Repr

/-- `DriveApp.getFileById(fid).setTrashed(true)`: `none` models the thrown
error when the file does not resolve. -/
def trashFile (st : DriveState) (fid : String) : Option DriveState :=
  if st.files.contains fid then some ⟨st.files.erase fid⟩ else none

/-- The `{ success, message?, note? }` result shape of the delete endpoint. -/
structure DeleteResult where
  success : Bool
  message : Option String
  note : Option String
deriving DecidableEq, Repr

/-- One individually-wrapped best-effort artifact deletion (dataService.js
555-579): a non-blank URL is resolved and trashed; any failure (bad URL or
missing file) is swallowed and the human-readable note collected. -/
def tryTrashByUrl (st : DriveState) (url : String) (failNote : String) :
    DriveState × List String :=
  if !(url = "") && !(jsTrim url = "") then
    match extractFileIdFromUrl url with
    | none => (st, [failNote])
    | some fid =>
      match trashFile st fid with
      | some st2 => (st2, [])
      | none => (st, [failNote])
  else (st, [])

/-- Full outcome of the delete operation: returned result, the sheet after the
operation, the Drive state, and whether the list cache was invalidated. -/
structure DeleteOutcome where
  result : DeleteResult
  sheet : List (List JSVal)
  drive : DriveState
  cacheInvalidated : Bool
deriving DecidableEq, Repr

/-- An artifact link that no longer resolves to a live file: either its URL
has no extractable file id, or the extracted id is not among the live files. -/
def linkGone (st : DriveState) (url : String) : Prop :=
  ∀ fid, extractFileIdFromUrl url = some fid → st.files.contains fid = false

/-- The Google-Doc link cell of a row, as the delete flow reads it. -/
def rowDocUrl (headers : List JSVal) (row : List JSVal) : String :=
  jsToStr (orEmptyStr (cellAtO row (jsIndexOf (headers.map jsToStr) "Google Doc Link")))

/-- The PDF link cell of a row, as the delete flow reads it. -/
def rowPdfUrl (headers : List JSVal) (row : List JSVal) : String :=
  jsToStr (orEmptyStr (cellAtO row (jsIndexOf (headers.map jsToStr) "PDF Link")))

/-- The cleanup note recorded when the Google Doc artifact cannot be
trashed. -/
def noteDocGone : String := "Google Doc already deleted or not found."

/-- The cleanup note recorded when the PDF artifact cannot be trashed. -/
def notePdfGone : String := "PDF already deleted or not found."

/-- The `j`-th data row of a sheet (0-based among the rows below the header). -/
def sheetRowAt (sheet : List (List JSVal)) (j : Nat) : List JSVal :=
  (sheet.drop 1).getD j []

/-- The Google-Doc link (`row[docLinkCol] || ""`) of the `j`-th data row. -/
def sheetDocUrl (sheet : List (List JSVal)) (j : Nat) : String :=
  rowDocUrl (sheet.headD []) (sheetRowAt sheet j)

/-- The PDF link of the `j`-th data row. -/
def sheetPdfUrl (sheet : List (List JSVal)) (j : Nat) : String :=
  rowPdfUrl (sheet.headD []) (sheetRowAt sheet j)

/-- The tail of the delete flow once the row is found (dataService.js
581-591): delete the physical row, clear the cache, and return success with
the joined cleanup note (or no note). -/
def deleteInvoiceFinish (sheet : List (List JSVal)) (j : Nat) (st2 : DriveState)
    (notes : List String) : DeleteOutcome :=
  ⟨⟨true, none, if notes.isEmpty then none else some (String.intercalate " " notes)⟩,
    sheet.eraseIdx (j + 1), st2, true⟩

/-- The found-row branch of `deleteInvoiceByIdFromData` (dataService.js
552-591): best-effort-trash the Google Doc, then (from the resulting drive
state) the PDF, each wrapped independently; then finish. -/
def deleteFoundRow (st : DriveState) (sheet : List (List JSVal)) (j : Nat) :
    DeleteOutcome :=
  deleteInvoiceFinish sheet j
    (tryTrashByUrl (tryTrashByUrl st (sheetDocUrl sheet j) noteDocGone).1
      (sheetPdfUrl sheet j) notePdfGone).1
    ((tryTrashByUrl st (sheetDocUrl sheet j) noteDocGone).2
      ++ (tryTrashByUrl (tryTrashByUrl st (sheetDocUrl sheet j) noteDocGone).1
        (sheetPdfUrl sheet j) notePdfGone).2)

/-- `deleteInvoiceByIdFromData` (dataService.js 516-596).  Link cells are
string cells in this app's rows; the two artifact deletions are wrapped
independently, the row is deleted regardless, the cache cleared, and success
returned with the collected cleanup note. -/
def deleteInvoiceByIdFromData (st : DriveState) (sheet : List (List JSVal))
    (id : JSVal) : DeleteOutcome :=
  if !truthy id || jsTrim (jsToStr id) = "" then
    ⟨⟨false, some "Invalid invoice ID provided", none⟩, sheet, st, false⟩
  else
    (jsIndexOf ((sheet.headD []).map jsToStr) "ID").elim
      ⟨⟨false, some "ID column not found.", none⟩, sheet, st, false⟩
      (fun idCol =>
        ((sheet.drop 1).findIdx? (fun r => strictEq (cellAt r idCol) id)).elim
          ⟨⟨false, some "Invoice not found.", none⟩, sheet, st, false⟩
          (fun j => deleteFoundRow st sheet j))

/-! ## Credit notes -/

/-- The template id hardcoded in `processCreditNoteFormFromData`
(dataService.js 2409, "Hardcoded template ID as requested"). -/
def CREDIT_NOTE_TEMPLATE_ID : String := "1yCKAx3nyIz-L_u3FPSK1zMof5Mo0m2-gsNzl1cCQsuQ"

/-- The (templateId, folderId) pair that `processCreditNoteFormFromData`
passes to `createCreditNoteDoc` (dataService.js 2404-2420): the template id is
the hardcoded constant; only the folder is resolved from the project. -/
def processCreditNoteFormRenderIds (cfg : ColumnsCfg) (defaultFolderId : String)
    (lists : List (List JSVal)) (projectName : String) : String × String :=
  (CREDIT_NOTE_TEMPLATE_ID, getProjectFolderId cfg defaultFolderId lists projectName)

/-- The template id that `saveCreditNoteData` passes to `createCreditNoteDoc`
(dataService.js 1226-1231): resolved through `getProjectDetailsFromData`,
failing when blank. -/
def saveCreditNoteDataTemplateId (cfg : ColumnsCfg)
    (currencySymbols : String → Option String) (lists : List (List JSVal))
    (projectName : String) : Except CfgError String :=
  (getProjectDetailsFromData cfg currencySymbols lists projectName).bind
    (fun details =>
      if details.templateId = "" then .error .noTemplateId else .ok details.templateId)

/-- The loose id match of `getCreditNoteDataByIdFromData` (dataService.js
1736): `rowId == id || rowId === id || rowId.toString() === id.toString()`. -/
def creditNoteIdMatches (rowId id : JSVal) : Bool :=
  looseEq rowId id || strictEq rowId id || (jsToStr rowId == jsToStr id)

/-- The credit-note item block parse (dataService.js 1758-1769): `maxRows`
four-cell slots at fixed base offset 18. -/
def decodeCreditNoteItems (maxRows : Nat) (row : List JSVal) : List (List JSVal) :=
  (List.range maxRows).filterMap (fun i =>
    let item := (row.drop (18 + i * 4)).take 4
    if item.any cellNonBlank then some item else none)

/-- The record object returned by `getCreditNoteDataByIdFromData`
(dataService.js 1771-1787). -/
structure CreditNoteRecord where
  projectName : JSVal
  creditNoteNumber : JSVal
  clientName : JSVal
  clientAddress : JSVal
  clientNumber : JSVal
  creditNoteDate : String
  tax : JSVal
  subtotal : JSVal
  total : JSVal
  exchangeRate : JSVal
  currency : JSVal
  amountInEUR : JSVal
  ourCompany : JSVal
  comment : JSVal
  items : List (List JSVal)
deriving DecidableEq, Repr

/-- `getCreditNoteDataByIdFromData` (dataService.js 1699-1796): validate the
id, locate the row by the LOOSE matcher, decode it; `none` models the `null`
not-found result.  `maxRows` models `CONFIG.CREDIT_NOTE_TABLE.MAX_ROWS`. -/
def getCreditNoteDataByIdFromData (H : HostOps) (maxRows : Nat)
    (sheet : List (List JSVal)) (id : JSVal) : Option CreditNoteRecord :=
  if !truthy id || jsTrim (jsToStr id) = "" then none
  else
    let headers := (sheet.headD []).map jsToStr
    match (sheet.drop 1).find? (fun r =>
        creditNoteIdMatches (cellAtO r (indexMapLookup headers "ID")) id) with
    | none => none
    | some row =>
      some
        { projectName := cellAtO row (indexMapLookup headers "Project Name")
          creditNoteNumber := cellAtO row (indexMapLookup headers "CN Number")
          clientName := cellAtO row (indexMapLookup headers "Client Name")
          clientAddress := cellAtO row (indexMapLookup headers "Client Address")
          clientNumber := cellAtO row (indexMapLookup headers "Client Number")
          creditNoteDate := H.formatDateForInput (cellAtO row (indexMapLookup headers "CN Date"))
          tax := cellAtO row (indexMapLookup headers "Tax Rate (%)")
          subtotal := cellAtO row (indexMapLookup headers "Subtotal")
          total := cellAtO row (indexMapLookup headers "Total")
          exchangeRate := cellAtO row (indexMapLookup headers "Exchange Rate")
          currency := cellAtO row (indexMapLookup headers "Currency")
          amountInEUR := cellAtO row (indexMapLookup headers "Amount in EUR")
          ourCompany := cellAtO row (indexMapLookup headers "Our Company")
          comment := cellAtO row (indexMapLookup headers "Comment")
          items := decodeCreditNoteItems maxRows row }

/-! ## Update row builders (`updateInvoiceByIdFromData`,
`updateCreditNoteByIdFromData`) -/

/-- `fullRow[indexMap[key]] = v`: a failed lookup makes the assignment a
property write on the array object, leaving all indexed cells and the array
length unchanged. -/
def setByHeader (headers : List String) (row : List JSVal) (key : String)
    (v : JSVal) : List JSVal :=
  match indexMapLookup headers key with
  | some i => row.set i v
  | none => row

/-- `row[headers.indexOf(key)] = v` (first-occurrence index; `row[-1]` is a
property write, not an indexed cell). -/
def setByFirstIdx (headers : List String) (row : List JSVal) (key : String)
    (v : JSVal) : List JSVal :=
  match jsIndexOf headers key with
  | some i => row.set i v
  | none => row

/-- The item-cell write loop of `updateInvoiceByIdFromData` (dataService.js
746-749): `capacity` cells written from column `fi` on, each write guarded by
`target < headers.length` — overflowing cells are silently dropped. -/
def applyItemWrites (headers : List String) (fi capacity : Nat)
    (flat : List String) (r : List JSVal) : List JSVal :=
  (List.range capacity).foldl (fun acc j =>
    if fi + j < headers.length then acc.set (fi + j) (.str (flat.getD j "")) else acc) r

/-- The rebuilt full row of `updateInvoiceByIdFromData` (dataService.js
703-750): a blank row of exactly `headers.length` cells, header fields placed
by name→index lookup, then the padded/truncated item block written from
`Row 1 #` on, each cell write guarded by `target < headers.length`. -/
def updateInvoiceFullRow (H : HostOps) (maxRows : Nat) (headers : List String)
    (d : InvoiceFormData) (id docUrl pdfUrl : String) : List JSVal :=
  let dd := if d.dueDate = "" then "01/01/1970" else d.dueDate
  let base := List.replicate headers.length (JSVal.str "")
  let r := setByHeader headers base "ID" (.str id)
  let r := setByHeader headers r "Project Name" (.str d.projectName)
  let r := setByHeader headers r "Invoice Number" (.str d.invoiceNumber)
  let r := setByHeader headers r "Client Name" (.str d.clientName)
  let r := setByHeader headers r "Client Address" (.str d.clientAddress)
  let r := setByHeader headers r "Client Number" (.str d.clientNumber)
  let r := setByHeader headers r "Invoice Date" (.date (H.newDate d.invoiceDate))
  let r := setByHeader headers r "Due Date" (.date (H.newDateYMD
    ((dd.splitOn "/").getD 2 "") ((dd.splitOn "/").getD 1 "") ((dd.splitOn "/").getD 0 "")))
  let r := setByHeader headers r "Tax Rate (%)" (.str (toFixed 0 (taxRateNum d)))
  let r := setByHeader headers r "Subtotal" (.str (toFixed 2 (subtotalNum d)))
  let r := setByHeader headers r "Tax Amount" (.str (toFixed 2 (taxAmountNum d)))
  let r := setByHeader headers r "Total" (.str (toFixed 2 (totalAmountNum d)))
  let r := setByHeader headers r "Exchange Rate" (.str (if d.currency = "$"
    then optToFixed 4 (jsParseFloat (if d.exchangeRate = "" then "0" else d.exchangeRate))
    else ""))
  let r := setByHeader headers r "Currency" (.str d.currency)
  let r := setByHeader headers r "Amount in EUR" (.str (if d.currency = "$"
    then optToFixed 2 (jsParseFloat (if d.amountInEUR = "" then "0" else d.amountInEUR))
    else ""))
  let r := setByHeader headers r "Bank Details 1" (.str d.bankDetails1)
  let r := setByHeader headers r "Bank Details 2" (.str d.bankDetails2)
  let r := setByHeader headers r "Our Company" (.str d.ourCompany)
  let r := setByHeader headers r "Comment" (.str d.comment)
  let r := setByHeader headers r "Google Doc Link" (.str docUrl)
  let r := setByHeader headers r "PDF Link" (.str pdfUrl)
  let capacity := maxRows * INVOICE_COLUMNS_PER_ROW
  let flat := updateFlatItems capacity d.items
  match jsIndexOf headers "Row 1 #" with
  | none => r
  | some fi => applyItemWrites headers fi capacity flat r

/-- The credit-note update submission (the one-argument
`updateCreditNoteByIdFromData`, dataService.js 2582-2732). -/
structure CreditNoteUpdateData where
  id : String
  projectName : String
  creditNoteNumber : String
  clientName : String
  clientAddress : String
  clientNumber : String
  creditNoteDate : String
  tax : String
  subtotal : String
  total : String
  exchangeRate : String
  currency : String
  amountInEUR : String
  ourCompany : String
  comment : String
  items : List (List String)
deriving Repr

/-- `s || t` on form strings. -/
def strOr (s t : String) : String := if s = "" then t else s

/-- The per-header cell of the credit-note update's `colMap` (dataService.js
2612-2627); `none` for headers outside the map. -/
def creditNoteColMap (H : HostOps) (d : CreditNoteUpdateData) (h : String) :
    Option JSVal :=
  if h = "Project Name" then some (.str d.projectName)
  else if h = "CN Number" then some (.str d.creditNoteNumber)
  else if h = "Client Name" then some (.str d.clientName)
  else if h = "Client Address" then some (.str d.clientAddress)
  else if h = "Client Number" then some (.str d.clientNumber)
  else if h = "CN Date" then
    some (if d.creditNoteDate = "" then .str "" else .date (H.newDate d.creditNoteDate))
  else if h = "Tax Rate (%)" then some (.str (strOr d.tax "0"))
  else if h = "Subtotal" then some (.str (strOr d.subtotal "0"))
  else if h = "Total" then some (.str (strOr d.total "0"))
  else if h = "Exchange Rate" then some (.str (strOr d.exchangeRate "1.0000"))
  else if h = "Currency" then some (.str (strOr d.currency "$"))
  else if h = "Amount in EUR" then some (.str d.amountInEUR)
  else if h = "Our Company" then some (.str d.ourCompany)
  else if h = "Comment" then some (.str d.comment)
  else none

/-- The rebuilt row of the one-argument `updateCreditNoteByIdFromData`
(dataService.js 2608-2652 and 2717-2719): every header position filled from
the `colMap`, the id, or the existing row; then the four cells of each item
written at base column 18 only when the whole item fits strictly below the
header width; finally the two link cells. -/
def updateCreditNoteRow (H : HostOps) (headers : List String)
    (existing : List JSVal) (d : CreditNoteUpdateData) (docUrl pdfUrl : String) :
    List JSVal :=
  let row := headers.mapIdx (fun i h =>
    match creditNoteColMap H d h with
    | some v => v
    | none => if h = "ID" then .str d.id else cellAt existing i)
  let row :=
    (List.range d.items.length).foldl (fun acc i =>
      let item := d.items.getD i []
      let startCol := 18 + i * 4
      if startCol + 3 < headers.length then
        (((acc.set startCol (.str (item.getD 0 ""))).set (startCol + 1)
          (.str (item.getD 1 ""))).set (startCol + 2) (.str (item.getD 2 ""))).set
          (startCol + 3) (.str (item.getD 3 ""))
      else acc) row
  let row := setByFirstIdx headers row "Google Doc Link" (.str docUrl)
  setByFirstIdx headers row "PDF Link" (.str pdfUrl)

/-! ## Concrete sample data for counterexamples and witnesses -/

/-- The 18 fixed credit-note header columns, as created by
`processCreditNoteFormFromData` (dataService.js 2322-2341). -/
def creditNoteBaseHeaders : List String :=
  ["ID", "Project Name", "CN Number", "Client Name", "Client Address",
   "Client Number", "CN Date", "Tax Rate (%)", "Subtotal", "Tax Amount",
   "Total", "Exchange Rate", "Currency", "Amount in EUR", "Our Company",
   "Comment", "Google Doc Link", "PDF Link"]

/-- A valid invoice submission with the spec's §8 monetary example values
(subtotal `100.00`, rate `15`). -/
def invData0 : InvoiceFormData :=
  { projectName := "Acme", invoiceNumber := "7", clientName := "Cli"
    clientAddress := "Addr", clientNumber := "42", invoiceDate := "2024-01-05"
    dueDate := "05/02/2024", tax := "15", subtotal := "100.00", currency := "€"
    exchangeRate := "", amountInEUR := "", bankDetails1 := "B1"
    bankDetails2 := "B2", ourCompany := "OurCo", comment := "ok"
    items := [["zz", "Consulting", "Jan 2024", "10", "5", "50"]]
    templateId := "T1" }

/-- A valid invoice submission whose subtotal is not in normalized 2-decimal
form. -/
def invData1 : InvoiceFormData :=
  { invData0 with subtotal := "100" }

/-- Three items of width six. -/
def items3 : List (List String) :=
  [["a", "s1", "p1", "1", "2", "2"], ["b", "s2", "p2", "3", "4", "12"],
   ["c", "s3", "p3", "5", "6", "30"]]

/-- One item whose first cell is not its position. -/
def items99 : List (List String) := [["99", "svc", "Jan", "1", "2", "3"]]

/-- A document table whose header row has the six signature labels AND an
extra seventh column. -/
def table7 : List (List String) :=
  [["#", "Services", "Period", "Quantity", "Rate/hour", "Amount", "Extra"],
   ["old", "old", "old", "old", "old", "old", "old"]]

/-- One rendered invoice item row. -/
def itemsR : List (List String) := [["1", "s", "p", "2", "3", "6"]]

/-- A concrete assignment of the `CONFIG.COLUMNS` indices (the folder-link URL
is at the hardcoded column 12). -/
def cfgA : ColumnsCfg :=
  { projectName := 0, templateName := 1, templateNameCol := 2, templateIdCol := 3
    bankShortCol := 4, bankFullCol := 5, taxRate := 6, bankShort1 := 7
    bankShort2 := 8, clientName := 9, clientNumberPart1 := 10
    clientNumberPart2 := 11, clientAddress := 13, currency := 14
    paymentDelay := 15, dayType := 16, ourCompany := 17 }

/-- A concrete `CONFIG.CURRENCY_SYMBOLS` table. -/
def curSymA : String → Option String := fun c => if c = "USD" then some "$" else none

/-- A concrete Lists reference sheet with one project whose selected template
resolves to a real template id. -/
def listsA : List (List JSVal) :=
  [[.str "Project Name"],
   [.str "Acme", .str "Tmpl A", .str "Tmpl A",
    .str "TMPL-ID-234567890123456789012345", .str "BK1", .str "Bank One Full",
    .num ⟨15, 100⟩, .str "BK1", .str "",
    .str "CliName", .str "11", .str "22",
    .str "https://drive.google.com/drive/folders/FOLDERID890123456789012345678",
    .str "Addr", .str "USD", .str "30", .str "cal", .str "OurCo"]]

/-- The invoice sheet for the id-type experiment: canonical headers and one
row whose ID cell holds the NUMBER `123`. -/
def sheetNum123Inv : List (List JSVal) :=
  (invoiceBaseHeaders.map .str) ::
    [JSVal.num ⟨123, 1⟩ :: (List.replicate 20 (JSVal.str "x") ++
      [.str "1", .str "s", .str "p", .str "2", .str "3", .str "6"])]

/-- The credit-note sheet for the id-type experiment: canonical headers and
one row whose ID cell holds the NUMBER `123`. -/
def sheetNum123CN : List (List JSVal) :=
  (creditNoteBaseHeaders.map .str) ::
    [JSVal.num ⟨123, 1⟩ :: (List.replicate 17 (JSVal.str "x") ++
      [.str "1", .str "d", .str "p", .str "9"])]

/-- A drive state holding no files at all (every artifact link unresolvable). -/
def emptyDrive : DriveState := ⟨[]⟩

/-- An invoice sheet with one record whose artifact links point at files that
no longer exist. -/
def sheetStale : List (List JSVal) :=
  [[.str "ID", .str "Google Doc Link", .str "PDF Link"],
   [.str "u1",
    .str "https://docs.google.com/document/d/AAAAAAAAAAAAAAAAAAAAAAAAAB/edit",
    .str "https://drive.google.com/file/d/CCCCCCCCCCCCCCCCCCCCCCCCCD/view"]]

/-- The configuration `getProjectDetailsFromData` resolves for `"Acme"` in
`listsA`. -/
def pcA : ProjectConfig :=
  { clientName := .str "CliName", clientNumber := "11 22", clientAddress := .str "Addr"
    tax := .str "15", currency := .str "$", paymentDelay := 30, dayType := "CAL"
    bankDetails1 := "Bank One Full", bankDetails2 := "", ourCompany := .str "OurCo"
    templateId := "TMPL-ID-234567890123456789012345" }

/-- The record decoded from `sheetNum123CN` for the loosely matched request. -/
def cnRec123 : CreditNoteRecord :=
  { projectName := .str "x", creditNoteNumber := .str "x", clientName := .str "x"
    clientAddress := .str "x", clientNumber := .str "x", creditNoteDate := "x"
    tax := .str "x", subtotal := .str "x", total := .str "x", exchangeRate := .str "x"
    currency := .str "x", amountInEUR := .str "x", ourCompany := .str "x"
    comment := .str "x"
    items := [[.str "1", .str "d", .str "p", .str "9"]] }

/-! ## Helper lemmas -/

theorem filterMap_eq_map_of_some {α β : Type} (l : List α) (f : α → Option β)
    (g : α → β) (h : ∀ a ∈ l, f a = some (g a)) : l.filterMap f = l.map g := by
  induction l with
  | nil => rfl
  | cons a t ih =>
    simp only [List.filterMap_cons, h a (by simp), List.map_cons]
    rw [ih (fun x hx => h x (by simp [hx]))]

theorem filterMap_eq_nil_of_none {α β : Type} (l : List α) (f : α → Option β)
    (h : ∀ a ∈ l, f a = none) : l.filterMap f = [] := by
  induction l with
  | nil => rfl
  | cons a t ih =>
    simp only [List.filterMap_cons, h a (by simp)]
    exact ih (fun x hx => h x (by simp [hx]))

theorem map_getD_range {α : Type} (l : List α) (d : α) :
    (List.range l.length).map (fun i => l.getD i d) = l := by
  induction l with
  | nil => rfl
  | cons a t ih =>
    rw [List.length_cons, List.range_succ_eq_map, List.map_cons, List.map_map]
    have hfun : ((fun i => (a :: t).getD i d) ∘ Nat.succ) = (fun i => t.getD i d) := by
      funext i
      rfl
    rw [hfun, ih, List.getD_cons_zero]

theorem flatten_length_uniform {α : Type} (w : Nat) (xs : List (List α))
    (hw : ∀ x ∈ xs, x.length = w) : xs.flatten.length = xs.length * w := by
  induction xs with
  | nil => simp
  | cons x t ih =>
    have hx : x.length = w := hw x (by simp)
    simp only [List.flatten_cons, List.length_append, List.length_cons,
      ih (fun y hy => hw y (by simp [hy])), hx]
    ring

theorem flatten_chunk {α : Type} (w : Nat) :
    ∀ (xs : List (List α)) (i : Nat), (∀ x ∈ xs, x.length = w) → i < xs.length →
      (xs.flatten.drop (i * w)).take w = xs.getD i []
  | [], i, _, hi => by simp at hi
  | x :: t, 0, hw, _ => by
    have hx : x.length = w := hw x (by simp)
    simp only [List.flatten_cons, Nat.zero_mul, List.drop_zero, List.getD_cons_zero]
    rw [List.take_append_of_le_length (by omega), ← hx, List.take_length]
  | x :: t, i + 1, hw, hi => by
    have hx : x.length = w := hw x (by simp)
    have harith : (i + 1) * w = x.length + i * w := by rw [hx]; ring
    rw [List.flatten_cons, harith, List.drop_append, List.getD_cons_succ]
    exact flatten_chunk w t i (fun y hy => hw y (by simp [hy])) (by simpa using hi)

theorem drop_append_ge {α : Type} (l₁ l₂ : List α) (n : Nat) (h : l₁.length ≤ n) :
    (l₁ ++ l₂).drop n = l₂.drop (n - l₁.length) := by
  rw [List.drop_append_eq_append_drop, List.drop_eq_nil_of_le h, List.nil_append]

theorem any_replicate_strEmpty (k : Nat) :
    (List.replicate k (JSVal.str "")).any cellNonBlank = false := by
  induction k with
  | zero => rfl
  | succ n ih =>
    rw [List.replicate_succ, List.any_cons, ih]
    decide

/-- The characters emitted by `natToDigits` are never whitespace. -/
theorem natToDigits_not_ws :
    ∀ fuel n : Nat, ∀ c ∈ natToDigits fuel n, c.isWhitespace = false := by
  intro fuel
  induction fuel with
  | zero => intro n c hc; simp [natToDigits] at hc
  | succ f ih =>
    intro n c hc
    unfold natToDigits at hc
    by_cases hn : n < 10
    · simp only [if_pos hn, List.mem_singleton] at hc
      subst hc
      interval_cases n <;> decide
    · simp only [if_neg hn, List.mem_append, List.mem_singleton] at hc
      rcases hc with hc | hc
      · exact ih (n / 10) c hc
      · subst hc
        have hm : n % 10 < 10 := Nat.mod_lt _ (by omega)
        set m := n % 10 with hmdef
        interval_cases m <;> decide

theorem natToDigits_ne_nil (fuel n : Nat) : natToDigits (fuel + 1) n ≠ [] := by
  unfold natToDigits
  by_cases hn : n < 10
  · simp [if_pos hn]
  · simp [if_neg hn]

theorem natToStr_ne_empty (n : Nat) : natToStr n ≠ "" := by
  intro h
  have : natToDigits (n + 1) n = [] := by
    simpa [natToStr, String.ext_iff] using h
  exact natToDigits_ne_nil n n this

theorem jsTrim_of_not_ws (l : List Char) (h : ∀ c ∈ l, c.isWhitespace = false) :
    jsTrim (String.mk l) = String.mk l := by
  have hdw : ∀ m : List Char, (∀ c ∈ m, c.isWhitespace = false) →
      m.dropWhile Char.isWhitespace = m := by
    intro m hm
    cases m with
    | nil => rfl
    | cons a t =>
      rw [List.dropWhile_cons, hm a (by simp)]
      simp
  unfold jsTrim
  rw [hdw l h, hdw l.reverse (fun c hc => h c (List.mem_reverse.mp hc)), List.reverse_reverse]

theorem jsTrim_natToStr (n : Nat) : jsTrim (natToStr n) = natToStr n :=
  jsTrim_of_not_ws _ (natToDigits_not_ws (n + 1) n)

theorem cellNonBlank_natToStr (n : Nat) : cellNonBlank (.str (natToStr n)) = true := by
  have h1 := natToStr_ne_empty n
  simp [cellNonBlank, truthy, jsToStr, jsTrim_natToStr, h1]

theorem getD_eq_getElem2 {α : Type} (l : List α) (d : α) (i : Nat)
    (hi : i < l.length) : l.getD i d = l[i] := by
  rw [List.getD_eq_getElem?_getD, List.getElem?_eq_getElem hi]
  rfl

theorem getD_mapIdx2 {α β : Type} (l : List α) (f : Nat → α → β) (i : Nat)
    (hi : i < l.length) (d : β) (e : α) :
    (l.mapIdx f).getD i d = f i (l.getD i e) := by
  have hi2 : i < (l.mapIdx f).length := by simpa using hi
  rw [getD_eq_getElem2 _ _ _ hi2, getD_eq_getElem2 _ _ _ hi]
  simp

theorem escapePeriod_length (r : List String) :
    (escapePeriod r).length = r.length := by
  unfold escapePeriod
  cases r.get? 2 with
  | none => rfl
  | some p => by_cases hp : p = "" <;> simp [hp]

theorem escapePeriod_getD0 (r : List String) :
    (escapePeriod r).getD 0 "" = r.getD 0 "" := by
  unfold escapePeriod
  cases r.get? 2 with
  | none => rfl
  | some p =>
    by_cases hp : p = ""
    · simp [hp]
    · simp only [hp, ite_false]
      cases r with
      | nil => rfl
      | cons a t => rfl

theorem stampFirst_getD0 (pos : String) (r : List String) :
    (stampFirst pos r).getD 0 "" = pos := by
  cases r <;> rfl

theorem stampedItems_length (items : List (List String)) :
    (stampedItems items).length = items.length := by
  simp [stampedItems]

theorem stampedItems_getD (items : List (List String)) (i : Nat)
    (hi : i < items.length) :
    (stampedItems items).getD i []
      = escapePeriod (stampFirst (natToStr (i + 1)) (items.getD i [])) :=
  getD_mapIdx2 items _ i hi [] []

/-- `stampedItems` preserves input width 6. -/
theorem stampedItems_width (items : List (List String))
    (hw : ∀ it ∈ items, it.length = 6) :
    ∀ y ∈ stampedItems items, y.length = 6 := by
  intro y hy
  obtain ⟨i, hi, hyeq⟩ := List.mem_iff_getElem.mp hy
  rw [stampedItems_length] at hi
  have hg : (stampedItems items).getD i [] = y := by
    rw [getD_eq_getElem2 _ _ _ (by simpa [stampedItems_length] using hi)]
    exact hyeq
  have hmem : items.getD i [] ∈ items := by
    rw [getD_eq_getElem2 _ _ _ hi]
    exact List.getElem_mem hi
  have hit : (items.getD i []).length = 6 := hw _ hmem
  rw [← hg, stampedItems_getD items i hi, escapePeriod_length]
  cases hcase : items.getD i [] with
  | nil => rw [hcase] at hit; simp at hit
  | cons a t => rw [hcase] at hit; simpa [stampFirst] using hit

/-- The first cell of the `i`-th stamped item is its 1-based position. -/
theorem stampedItems_head (items : List (List String)) (i : Nat)
    (hi : i < items.length) :
    ((stampedItems items).getD i []).getD 0 "" = natToStr (i + 1) := by
  rw [stampedItems_getD items i hi, escapePeriod_getD0, stampFirst_getD0]

/-- Decoding the item block of any stored row whose item region is a stamped,
escaped flattened block followed by arbitrary blank padding returns exactly
the stamped items — no padding ghosts, every real item kept (its first cell,
the position stamp, is non-blank). -/
theorem decodeInvoiceItems_encodedBlock (maxRows : Nat) (base : List JSVal)
    (hbase : base.length = 21) (items : List (List String))
    (hw : ∀ it ∈ items, it.length = 6) (hlen : items.length ≤ maxRows) (p : Nat) :
    decodeInvoiceItems maxRows
        (base ++ ((stampedItems items).flatten ++ List.replicate p "").map JSVal.str)
      = (stampedItems items).map (List.map JSVal.str) := by
  set S := stampedItems items with hS
  set FS := S.map (List.map JSVal.str) with hFS
  have hSw : ∀ y ∈ S, y.length = 6 := stampedItems_width items hw
  have hFSw : ∀ x ∈ FS, x.length = 6 := by
    intro x hx
    rw [hFS, List.mem_map] at hx
    obtain ⟨y, hy, rfl⟩ := hx
    simpa using hSw y hy
  have hSlen : S.length = items.length := stampedItems_length items
  have hFSlen : FS.length = items.length := by simp [hFS, hSlen]
  have hflatlen : FS.flatten.length = items.length * 6 := by
    rw [flatten_length_uniform 6 FS hFSw, hFSlen]
  have htail : ((S.flatten ++ List.replicate p "").map JSVal.str)
      = FS.flatten ++ List.replicate p (JSVal.str "") := by
    rw [List.map_append, List.map_replicate, List.map_flatten, hFS]
  rw [htail]
  set tail := FS.flatten ++ List.replicate p (JSVal.str "") with htl
  have hdrop : ∀ i : Nat,
      (base ++ tail).drop (21 + i * INVOICE_COLUMNS_PER_ROW) = tail.drop (i * 6) := by
    intro i
    have : 21 + i * INVOICE_COLUMNS_PER_ROW = base.length + i * 6 := by
      simp [hbase, INVOICE_COLUMNS_PER_ROW]
    rw [this, List.drop_append]
  have hchunk_lt : ∀ i : Nat, i < items.length →
      ((base ++ tail).drop (21 + i * INVOICE_COLUMNS_PER_ROW)).take INVOICE_COLUMNS_PER_ROW
        = FS.getD i [] := by
    intro i hi
    rw [hdrop i]
    have h1 : tail.drop (i * 6) = FS.flatten.drop (i * 6) ++ List.replicate p (JSVal.str "") := by
      rw [htl, List.drop_append_eq_append_drop]
      have : i * 6 - FS.flatten.length = 0 := by omega
      rw [this, List.drop_zero]
    have h2 : 6 ≤ (FS.flatten.drop (i * 6)).length := by
      rw [List.length_drop, hflatlen]
      omega
    show (tail.drop (i * 6)).take 6 = FS.getD i []
    rw [h1, List.take_append_of_le_length h2]
    exact flatten_chunk 6 FS i hFSw (by omega)
  have hchunk_ge : ∀ i : Nat, items.length ≤ i →
      ∃ k, ((base ++ tail).drop (21 + i * INVOICE_COLUMNS_PER_ROW)).take INVOICE_COLUMNS_PER_ROW
        = List.replicate k (JSVal.str "") := by
    intro i hi
    rw [hdrop i]
    have h1 : tail.drop (i * 6)
        = List.replicate (p - (i * 6 - FS.flatten.length)) (JSVal.str "") := by
      rw [htl, drop_append_ge _ _ _ (by omega), List.drop_replicate]
    refine ⟨min INVOICE_COLUMNS_PER_ROW (p - (i * 6 - FS.flatten.length)), ?_⟩
    show (tail.drop (i * 6)).take INVOICE_COLUMNS_PER_ROW = _
    rw [h1, List.take_replicate]
  have hnonblank : ∀ i : Nat, i < items.length →
      (FS.getD i []).any cellNonBlank = true := by
    intro i hi
    have hiFS : i < FS.length := by omega
    have hiS : i < S.length := by omega
    have hmapD : FS.getD i [] = List.map JSVal.str (S.getD i []) := by
      rw [getD_eq_getElem2 _ _ _ hiFS, getD_eq_getElem2 _ _ _ hiS]
      simp [hFS]
    have hh : (S.getD i []).getD 0 "" = natToStr (i + 1) :=
      stampedItems_head items i (by omega)
    have hSlen6 : (S.getD i []).length = 6 := by
      refine hSw _ ?_
      rw [getD_eq_getElem2 _ _ _ hiS]
      exact List.getElem_mem hiS
    rw [List.any_eq_true, hmapD]
    refine ⟨JSVal.str ((S.getD i []).getD 0 ""), ?_, ?_⟩
    · have h0lt : 0 < (S.getD i []).length := by omega
      have hm : (S.getD i []).getD 0 "" ∈ S.getD i [] := by
        rw [getD_eq_getElem2 (S.getD i []) "" 0 h0lt]
        exact List.getElem_mem h0lt
      exact List.mem_map_of_mem _ hm
    · rw [hh]
      exact cellNonBlank_natToStr (i + 1)
  unfold decodeInvoiceItems
  have hsplit : List.range maxRows
      = List.range items.length ++ (List.range (maxRows - items.length)).map (items.length + ·) := by
    rw [← List.range_add]
    congr 1
    omega
  rw [hsplit, List.filterMap_append, List.filterMap_map]
  have hpart1 : (List.range items.length).filterMap (fun i =>
      let item := ((base ++ tail).drop (21 + i * INVOICE_COLUMNS_PER_ROW)).take INVOICE_COLUMNS_PER_ROW
      if item.any cellNonBlank then some item else none)
      = (List.range items.length).map (fun i => FS.getD i []) := by
    refine filterMap_eq_map_of_some _ _ _ ?_
    intro i hi
    rw [List.mem_range] at hi
    simp only [hchunk_lt i hi, hnonblank i hi, if_pos]
  have hpart2 : (List.range (maxRows - items.length)).filterMap ((fun i =>
      let item := ((base ++ tail).drop (21 + i * INVOICE_COLUMNS_PER_ROW)).take INVOICE_COLUMNS_PER_ROW
      if item.any cellNonBlank then some item else none) ∘ (items.length + ·))
      = [] := by
    refine filterMap_eq_nil_of_none _ _ ?_
    intro k _
    obtain ⟨kk, hkk⟩ := hchunk_ge (items.length + k) (by omega)
    simp only [Function.comp]
    rw [hkk, any_replicate_strEmpty]
    rfl
  rw [hpart1, hpart2, List.append_nil]
  have : (List.range items.length).map (fun i => FS.getD i []) = FS := by
    have := map_getD_range FS []
    rwa [hFSlen] at this
  rw [this]

theorem chunk_head {α : Type} (l : List α) (n : Nat) (d : α) :
    ((l.drop n).take 6).getD 0 d = l.getD n d := by
  rw [List.getD_eq_getElem?_getD, List.getD_eq_getElem?_getD,
    List.getElem?_take_of_lt (by omega), List.getElem?_drop]
  simp

theorem updateFlatItems_length (capacity : Nat) (items : List (List String)) :
    (updateFlatItems capacity items).length = capacity := by
  unfold updateFlatItems
  rw [List.length_append, List.length_take, List.length_replicate]
  omega

/-! ## Claim theorems -/

/-- C2: the stored tax-amount cell (index 10) of the persisted invoice row is
`toFixed(2)` of subtotal × taxRate / 100, the stored total cell (index 11) is
`toFixed(2)` of subtotal + taxAmount, and on the spec's example — subtotal
`"100.00"`, rate `"15"` — the persisted strings are exactly `"15.00"` and
`"115.00"`. -/
theorem c2_tax_total_formula :
    (∀ (H : HostOps) (uid : String) (d : InvoiceFormData),
      cellAt (processFormRow H uid d) 10 = .str (toFixed 2 (taxAmountNum d))
      ∧ cellAt (processFormRow H uid d) 11 = .str (toFixed 2 (totalAmountNum d))
      ∧ taxAmountNum d = jqDivNat (jqMul (parseFloatOr0 d.subtotal) (parseFloatOr0 d.tax)) 100
      ∧ totalAmountNum d = jqAdd (parseFloatOr0 d.subtotal) (taxAmountNum d))
    ∧ cellAt (processFormRow plainHost "u" invData0) 10 = .str "15.00"
    ∧ cellAt (processFormRow plainHost "u" invData0) 11 = .str "115.00" := by
  refine ⟨fun H uid d => ⟨rfl, rfl, rfl, rfl⟩, by decide, by decide⟩

/-- C3 counterexample: the CREATE path `processFormFromData` does not truncate
the flattened item block to the capacity — with a cap of 2 rows (12 cells) it
writes all 18 cells of three items.  (The create path has no slice or padding
at all, so this holds for any value of the cap.) -/
theorem c3_create_no_truncation_counterexample :
    (processFormItemCells items3).length = 18
    ∧ 2 * INVOICE_COLUMNS_PER_ROW = 12
    ∧ ¬(processFormItemCells items3).length = 2 * INVOICE_COLUMNS_PER_ROW := by
  decide

/-- C3 amended: the UPDATE path's flattened item block always has exactly the
reserved width — longer item lists are truncated to it and shorter ones
blank-padded up to it — and decoding a row stored by the update path returns
exactly the stamped items, never a padding slot; the CREATE path, by contrast,
flattens all items without truncation (its block exceeds the reserved width as
soon as the list does). -/
theorem c3_truncation_padding_decode (maxRows : Nat) (items : List (List String))
    (base : List JSVal) (hbase : base.length = 21)
    (hw : ∀ it ∈ items, it.length = 6) :
    (updateFlatItems (maxRows * INVOICE_COLUMNS_PER_ROW) items).length
        = maxRows * INVOICE_COLUMNS_PER_ROW
    ∧ (maxRows * INVOICE_COLUMNS_PER_ROW < (stampedItems items).flatten.length →
        updateFlatItems (maxRows * INVOICE_COLUMNS_PER_ROW) items
          = (stampedItems items).flatten.take (maxRows * INVOICE_COLUMNS_PER_ROW))
    ∧ (items.length ≤ maxRows →
        updateFlatItems (maxRows * INVOICE_COLUMNS_PER_ROW) items
          = (stampedItems items).flatten
            ++ List.replicate (maxRows * INVOICE_COLUMNS_PER_ROW - items.length * 6) "")
    ∧ (items.length ≤ maxRows →
        decodeInvoiceItems maxRows
            (base ++ (updateFlatItems (maxRows * INVOICE_COLUMNS_PER_ROW) items).map JSVal.str)
          = (stampedItems items).map (List.map JSVal.str))
    ∧ (maxRows < items.length →
        maxRows * INVOICE_COLUMNS_PER_ROW < (processFormItemCells items).length) := by
  have hSw := stampedItems_width items hw
  have hflat : (stampedItems items).flatten.length = items.length * 6 := by
    rw [flatten_length_uniform 6 _ hSw, stampedItems_length]
  have hcols : INVOICE_COLUMNS_PER_ROW = 6 := rfl
  have hpadEq : items.length ≤ maxRows →
      updateFlatItems (maxRows * INVOICE_COLUMNS_PER_ROW) items
        = (stampedItems items).flatten
          ++ List.replicate (maxRows * INVOICE_COLUMNS_PER_ROW - items.length * 6) "" := by
    intro hle
    unfold updateFlatItems
    have h1 : (stampedItems items).flatten.length ≤ maxRows * INVOICE_COLUMNS_PER_ROW := by
      rw [hflat, hcols]
      omega
    rw [List.take_of_length_le h1, hflat]
  refine ⟨updateFlatItems_length _ _, ?_, hpadEq, ?_, ?_⟩
  · intro hgt
    unfold updateFlatItems
    have h0 : maxRows * INVOICE_COLUMNS_PER_ROW - (stampedItems items).flatten.length = 0 := by
      omega
    rw [h0, List.replicate_zero, List.append_nil]
  · intro hle
    rw [hpadEq hle]
    exact decodeInvoiceItems_encodedBlock maxRows base hbase items hw hle _
  · intro hgt
    show maxRows * INVOICE_COLUMNS_PER_ROW < (stampedItems items).flatten.length
    rw [hflat, hcols]
    omega

/-- C3 witness: the amended statement applied to a concrete overlong list
(cap 2 rows, three items). -/
theorem c3_truncation_padding_decode_witness :
    (updateFlatItems (2 * INVOICE_COLUMNS_PER_ROW) items3).length
      = 2 * INVOICE_COLUMNS_PER_ROW :=
  (c3_truncation_padding_decode 2 items3 (List.replicate 21 (JSVal.str ""))
    (by decide) (by decide)).1

/-- C4 counterexample: the create-persist path `saveInvoiceData` does NOT
overwrite an item's first cell with its 1-based position — the caller-supplied
`"99"` is persisted verbatim where the claim requires `"1"`. -/
theorem c4_save_no_stamp_counterexample :
    (saveInvoiceItemCells items99).getD 0 "" = "99"
    ∧ ¬(saveInvoiceItemCells items99).getD 0 "" = natToStr 1 := by
  decide

/-- C4 amended: the create path `processFormFromData` (whose stamped block the
invoice update path and both credit-note encode paths reuse) stores items in
input order, the `i`-th six-cell chunk being exactly the `i`-th input item with
its first cell overwritten by `i+1`; `saveInvoiceData` stores items in input
order but preserves the caller-supplied first cell, applying only the period
escape. -/
theorem c4_stamping_order (items : List (List String))
    (hw : ∀ it ∈ items, it.length = 6) (i : Nat) (hi : i < items.length) :
    ((processFormItemCells items).drop (i * 6)).take 6
        = escapePeriod (stampFirst (natToStr (i + 1)) (items.getD i []))
    ∧ (processFormItemCells items).getD (i * 6) "" = natToStr (i + 1)
    ∧ ((saveInvoiceItemCells items).drop (i * 6)).take 6 = escapePeriod (items.getD i [])
    ∧ (saveInvoiceItemCells items).getD (i * 6) "" = (items.getD i []).getD 0 "" := by
  have hSw := stampedItems_width items hw
  have hEw : ∀ y ∈ items.map escapePeriod, y.length = 6 := by
    intro y hy
    rw [List.mem_map] at hy
    obtain ⟨x, hx, rfl⟩ := hy
    rw [escapePeriod_length]
    exact hw x hx
  have hchunkP : ((processFormItemCells items).drop (i * 6)).take 6
      = (stampedItems items).getD i [] := by
    have := flatten_chunk 6 (stampedItems items) i hSw (by rw [stampedItems_length]; omega)
    simpa [processFormItemCells] using this
  have hchunkS : ((saveInvoiceItemCells items).drop (i * 6)).take 6
      = (items.map escapePeriod).getD i [] := by
    have := flatten_chunk 6 (items.map escapePeriod) i hEw (by simpa using hi)
    simpa [saveInvoiceItemCells] using this
  have hmapE : (items.map escapePeriod).getD i [] = escapePeriod (items.getD i []) := by
    rw [getD_eq_getElem2 _ _ _ (by simpa using hi), getD_eq_getElem2 _ _ _ hi]
    simp
  refine ⟨?_, ?_, ?_, ?_⟩
  · rw [hchunkP]
    exact stampedItems_getD items i hi
  · rw [← chunk_head (processFormItemCells items) (i * 6) "", hchunkP]
    exact stampedItems_head items i hi
  · rw [hchunkS, hmapE]
  · rw [← chunk_head (saveInvoiceItemCells items) (i * 6) "", hchunkS, hmapE,
      escapePeriod_getD0]

/-- C1 counterexample: `invData1` is a valid submission (it passes
`validateInvoiceData`), but decoding its freshly persisted row returns
subtotal `"100.00"` where the record held `"100"` — a difference in a header
cell, not an item-position restamp nor a period escape, so
`decode(encode(record)) == record` fails as stated. -/
theorem c1_roundtrip_counterexample :
    validateInvoiceData invData1 = true
    ∧ invData1.subtotal = "100"
    ∧ (decodeInvoiceRow plainHost 20 (invoiceHeaders 20)
        (processFormRow plainHost "uid" invData1)).subtotal = .str "100.00"
    ∧ ¬(decodeInvoiceRow plainHost 20 (invoiceHeaders 20)
        (processFormRow plainHost "uid" invData1)).subtotal = .str invData1.subtotal := by
  refine ⟨by decide, by decide, by decide, by decide⟩

/-- C1 amended: decoding the freshly persisted flat row of any submission with
at most `MAX_ROWS` items of width six reproduces every identification and
free-text header field verbatim and the item list up to position restamping
and period escaping; the monetary and date fields come back in normalized
stored form instead of verbatim — tax as its integer-rounded string, subtotal
and the recomputed total as 2-decimal strings, the exchange-rate fields
blanked unless the currency is `$`, and the dates through the sheet's date
round-trip. -/
theorem c1_roundtrip_characterization (H : HostOps) (uid : String)
    (d : InvoiceFormData) (hlen : d.items.length ≤ 20)
    (hw : ∀ it ∈ d.items, it.length = 6) :
    decodeInvoiceRow H 20 (invoiceHeaders 20) (processFormRow H uid d)
      = { projectName := .str d.projectName
          invoiceNumber := .str d.invoiceNumber
          clientName := .str d.clientName
          clientAddress := .str d.clientAddress
          clientNumber := .str d.clientNumber
          invoiceDate := H.formatDateForInput (.date (H.newDate d.invoiceDate))
          dueDate := H.formatDateForInput (.date (H.newDateYMD
            ((d.dueDate.splitOn "/").getD 2 "") ((d.dueDate.splitOn "/").getD 1 "")
            ((d.dueDate.splitOn "/").getD 0 "")))
          tax := .str (toFixed 0 (taxRateNum d))
          subtotal := .str (toFixed 2 (subtotalNum d))
          total := .str (toFixed 2 (totalAmountNum d))
          exchangeRate := .str (if d.currency = "$"
            then optToFixed 4 (jsParseFloat d.exchangeRate) else "")
          currency := .str d.currency
          amountInEUR := .str (if d.currency = "$"
            then optToFixed 2 (jsParseFloat d.amountInEUR) else "")
          bankDetails1 := .str d.bankDetails1
          bankDetails2 := .str d.bankDetails2
          ourCompany := .str d.ourCompany
          comment := .str d.comment
          items := (stampedItems d.items).map (List.map JSVal.str) } := by
  have hitems : decodeInvoiceItems 20 (processFormRow H uid d)
      = (stampedItems d.items).map (List.map JSVal.str) := by
    have hform : processFormRow H uid d
        = processFormBaseCells H uid d
          ++ ((stampedItems d.items).flatten ++ List.replicate 0 "").map JSVal.str := by
      rw [List.replicate_zero, List.append_nil]
      rfl
    rw [hform]
    exact decodeInvoiceItems_encodedBlock 20 (processFormBaseCells H uid d) rfl
      d.items hw hlen 0
  simp only [decodeInvoiceRow, InvoiceRecord.mk.injEq]
  refine ⟨?_, ?_, ?_, ?_, ?_, ?_, ?_, ?_, ?_, ?_, ?_, ?_, ?_, ?_, ?_, ?_, ?_, hitems⟩
  · rw [show indexMapLookup (invoiceHeaders 20) "Project Name" = some 1 from by decide]
    rfl
  · rw [show indexMapLookup (invoiceHeaders 20) "Invoice Number" = some 2 from by decide]
    rfl
  · rw [show indexMapLookup (invoiceHeaders 20) "Client Name" = some 3 from by decide]
    rfl
  · rw [show indexMapLookup (invoiceHeaders 20) "Client Address" = some 4 from by decide]
    rfl
  · rw [show indexMapLookup (invoiceHeaders 20) "Client Number" = some 5 from by decide]
    rfl
  · rw [show indexMapLookup (invoiceHeaders 20) "Invoice Date" = some 6 from by decide]
    rfl
  · rw [show indexMapLookup (invoiceHeaders 20) "Due Date" = some 7 from by decide]
    rfl
  · rw [show indexMapLookup (invoiceHeaders 20) "Tax Rate (%)" = some 8 from by decide]
    rfl
  · rw [show indexMapLookup (invoiceHeaders 20) "Subtotal" = some 9 from by decide]
    rfl
  · rw [show indexMapLookup (invoiceHeaders 20) "Total" = some 11 from by decide]
    rfl
  · rw [show indexMapLookup (invoiceHeaders 20) "Exchange Rate" = some 12 from by decide]
    rfl
  · rw [show indexMapLookup (invoiceHeaders 20) "Currency" = some 13 from by decide]
    rfl
  · rw [show indexMapLookup (invoiceHeaders 20) "Amount in EUR" = some 14 from by decide]
    rfl
  · rw [show indexMapLookup (invoiceHeaders 20) "Bank Details 1" = some 15 from by decide]
    rfl
  · rw [show indexMapLookup (invoiceHeaders 20) "Bank Details 2" = some 16 from by decide]
    rfl
  · rw [show indexMapLookup (invoiceHeaders 20) "Our Company" = some 17 from by decide]
    rfl
  · rw [show indexMapLookup (invoiceHeaders 20) "Comment" = some 18 from by decide]
    rfl

/-- C1 witness: the characterization applied to the concrete valid submission
`invData0` (one item, width six). -/
theorem c1_roundtrip_characterization_witness :
    invData0.items.length ≤ 20
    ∧ decodeInvoiceRow plainHost 20 (invoiceHeaders 20)
        (processFormRow plainHost "u" invData0)
      = { projectName := .str invData0.projectName
          invoiceNumber := .str invData0.invoiceNumber
          clientName := .str invData0.clientName
          clientAddress := .str invData0.clientAddress
          clientNumber := .str invData0.clientNumber
          invoiceDate := plainHost.formatDateForInput (.date (plainHost.newDate invData0.invoiceDate))
          dueDate := plainHost.formatDateForInput (.date (plainHost.newDateYMD
            ((invData0.dueDate.splitOn "/").getD 2 "") ((invData0.dueDate.splitOn "/").getD 1 "")
            ((invData0.dueDate.splitOn "/").getD 0 "")))
          tax := .str (toFixed 0 (taxRateNum invData0))
          subtotal := .str (toFixed 2 (subtotalNum invData0))
          total := .str (toFixed 2 (totalAmountNum invData0))
          exchangeRate := .str (if invData0.currency = "$"
            then optToFixed 4 (jsParseFloat invData0.exchangeRate) else "")
          currency := .str invData0.currency
          amountInEUR := .str (if invData0.currency = "$"
            then optToFixed 2 (jsParseFloat invData0.amountInEUR) else "")
          bankDetails1 := .str invData0.bankDetails1
          bankDetails2 := .str invData0.bankDetails2
          ourCompany := .str invData0.ourCompany
          comment := .str invData0.comment
          items := (stampedItems invData0.items).map (List.map JSVal.str) } :=
  ⟨by decide, c1_roundtrip_characterization plainHost "u" invData0 (by decide) (by decide)⟩

/-- C5 counterexample: a document table whose header row carries the six
signature labels AND a seventh column is selected by the invoice renderer and
filled with item rows — the match does not require the exact column count the
claim states. -/
theorem c5_exact_signature_counterexample :
    ¬tableHeaders table7 = INVOICE_TABLE_SIGNATURE
    ∧ (table7.headD []).length = 7
    ∧ updateInvoiceTable plainHost [table7] itemsR "€"
        = .ok [[["#", "Services", "Period", "Quantity", "Rate/hour", "Amount", "Extra"],
                ["1", "s", "p", "2", "3", "6"]]] := by
  refine ⟨by decide, by decide, by decide⟩

/-- C5 amended: the invoice renderer selects a table iff its header row has at
least six cells whose FIRST SIX trimmed texts equal the exact case-sensitive
signature (extra columns tolerated), and fails with `TableNotFound` when no
table matches; the credit-note renderer matches per column by case-insensitive
substring and, when nothing matches, returns the document unchanged — zero
item rows written. -/
theorem c5_matching_and_failure_modes :
    (∀ hs : List String,
      invoiceHeaderMatch hs = true ↔ 6 ≤ hs.length ∧ hs.take 6 = INVOICE_TABLE_SIGNATURE)
    ∧ (∀ (H : HostOps) (tables : List (List (List String)))
        (items : List (List String)) (cur : String),
        (∀ t ∈ tables, invoiceHeaderMatch (tableHeaders t) = false) →
        updateInvoiceTable H tables items cur = .error .tableNotFound)
    ∧ (∀ (H : HostOps) (tables : List (List (List String)))
        (items : List (List String)) (cur : String),
        (∀ t ∈ tables, (!t.isEmpty && creditNoteHeaderMatch (tableHeaders t)) = false) →
        updateCreditNoteTable H tables items cur = tables)
    ∧ creditNoteHeaderMatch ["#", "DESCRIPTION of services", "PERIOD", "AMOUNT, EUR"] = true
    ∧ invoiceHeaderMatch ["#", "services", "Period", "Quantity", "Rate/hour", "Amount"] = false := by
  refine ⟨?_, ?_, ?_, by decide, by decide⟩
  · intro hs
    rcases hs with _ | ⟨a, _ | ⟨b, _ | ⟨c, _ | ⟨d, _ | ⟨e, _ | ⟨f, rest⟩⟩⟩⟩⟩⟩ <;>
      simp [invoiceHeaderMatch, INVOICE_TABLE_SIGNATURE] <;> tauto
  · intro H tables items cur hall
    unfold updateInvoiceTable
    rw [List.findIdx?_eq_none_iff.mpr hall]
  · intro H tables items cur hall
    unfold updateCreditNoteTable
    rw [List.findIdx?_eq_none_iff.mpr hall]

/-- C5 witness: both failure modes on a concrete document with one
non-matching table. -/
theorem c5_matching_and_failure_modes_witness :
    updateInvoiceTable plainHost [[["Nope"]]] itemsR "€" = .error .tableNotFound
    ∧ updateCreditNoteTable plainHost [[["Nope"]]] itemsR "€" = [[["Nope"]]] :=
  ⟨(c5_matching_and_failure_modes.2.1) plainHost [[["Nope"]]] itemsR "€" (by decide),
   (c5_matching_and_failure_modes.2.2.1) plainHost [[["Nope"]]] itemsR "€" (by decide)⟩

/-- C6 counterexample: for a project whose configured template resolves to
`TMPL-ID-234567890123456789012345`, the credit-note creation path
`processCreditNoteFormFromData` still passes the hardcoded constant template
id to the renderer — not the Config Resolver's value. -/
theorem c6_hardcoded_template_counterexample :
    getProjectDetailsFromData cfgA curSymA listsA "Acme" = .ok pcA
    ∧ pcA.templateId = "TMPL-ID-234567890123456789012345"
    ∧ (processCreditNoteFormRenderIds cfgA "DEF" listsA "Acme").1 = CREDIT_NOTE_TEMPLATE_ID
    ∧ ¬(processCreditNoteFormRenderIds cfgA "DEF" listsA "Acme").1 = pcA.templateId := by
  refine ⟨by decide, by decide, by decide, by decide⟩

/-- C6 amended: the live credit-note creation always passes the hardcoded
constant template id, independent of the submitted project; only the
alternative `saveCreditNoteData` path passes the Config Resolver's template
id. -/
theorem c6_template_resolution_paths :
    (∀ (cfg : ColumnsCfg) (dfl : String) (lists : List (List JSVal)) (p : String),
      (processCreditNoteFormRenderIds cfg dfl lists p).1 = CREDIT_NOTE_TEMPLATE_ID)
    ∧ (∀ (cfg : ColumnsCfg) (sym : String → Option String)
        (lists : List (List JSVal)) (p : String) (pc : ProjectConfig),
        getProjectDetailsFromData cfg sym lists p = .ok pc →
        ¬pc.templateId = "" →
        saveCreditNoteDataTemplateId cfg sym lists p = .ok pc.templateId) := by
  constructor
  · intro cfg dfl lists p
    rfl
  · intro cfg sym lists p pc h hne
    unfold saveCreditNoteDataTemplateId
    rw [h]
    simp [Except.bind, hne]

/-- C6 witness: the resolver-based `saveCreditNoteData` path on the concrete
reference table. -/
theorem c6_template_resolution_paths_witness :
    saveCreditNoteDataTemplateId cfgA curSymA listsA "Acme" = .ok pcA.templateId :=
  c6_template_resolution_paths.2 cfgA curSymA listsA "Acme" pcA (by decide) (by decide)

/-- C8: resolving a project configuration depends on the queried name only
through trimming and lower-casing, so any variant differing from a resolvable
name only by letter case and leading/trailing whitespace yields the identical
configuration. -/
theorem c8_project_lookup_canonical (cfg : ColumnsCfg)
    (sym : String → Option String) (values : List (List JSVal)) (n1 n2 : String)
    (pc : ProjectConfig) (hcanon : jsLower (jsTrim n1) = jsLower (jsTrim n2))
    (h1 : getProjectDetailsFromData cfg sym values n1 = .ok pc) :
    getProjectDetailsFromData cfg sym values n2 = .ok pc := by
  unfold getProjectDetailsFromData at h1 ⊢
  rw [← hcanon]
  cases hf : findProjectRow cfg values (jsLower (jsTrim n1)) with
  | none =>
    rw [hf, Option.elim_none] at h1
    exact absurd h1 (by simp)
  | some row =>
    rw [hf, Option.elim_some] at h1
    rw [Option.elim_some]
    by_cases htn : cellStrTrim row cfg.templateName = ""
    · rw [if_pos htn] at h1
      exact absurd h1 (by simp)
    · rw [if_neg htn] at h1 ⊢
      cases hm : mapGet (buildTemplateMap cfg values)
          (jsLower (cellStrTrim row cfg.templateName)) with
      | none =>
        rw [hm, Option.elim_none] at h1
        exact absurd h1 (by simp)
      | some tid =>
        rw [hm, Option.elim_some] at h1
        rw [Option.elim_some]
        exact h1

/-- C8 witness: `"  ACME "` (case and whitespace variant) resolves to the same
configuration as the canonical `"Acme"`. -/
theorem c8_project_lookup_canonical_witness :
    getProjectDetailsFromData cfgA curSymA listsA "  ACME " = .ok pcA :=
  c8_project_lookup_canonical cfgA curSymA listsA "Acme" "  ACME " pcA
    (by decide) (by decide)

/-- A wrapped artifact deletion whose link does not resolve swallows the error
and only records the note. -/
theorem tryTrashByUrl_fails (st : DriveState) (url note : String)
    (h1 : ¬url = "") (h2 : ¬jsTrim url = "") (hgone : linkGone st url) :
    tryTrashByUrl st url note = (st, [note]) := by
  unfold tryTrashByUrl
  rw [if_pos (by simp [h1, h2])]
  cases hx : extractFileIdFromUrl url with
  | none => rfl
  | some fid =>
    show (match trashFile st fid with
        | some st2 => (st2, [])
        | none => (st, [note])) = (st, [note])
    unfold trashFile
    rw [hgone fid hx]
    rfl

/-- C7: deleting an existing record whose two artifact links no longer resolve
still succeeds: each deletion failure is swallowed independently (neither
blocks the other nor the row removal), the physical row is removed, the list
cache is invalidated, and the result carries the human-readable note listing
both artifacts that could not be cleaned up. -/
theorem c7_delete_stale_links (st : DriveState) (headers : List JSVal)
    (rows : List (List JSVal)) (id : JSVal) (j ic : Nat)
    (hid1 : truthy id = true) (hid2 : ¬jsTrim (jsToStr id) = "")
    (hic : jsIndexOf (headers.map jsToStr) "ID" = some ic)
    (hfind : rows.findIdx? (fun r => strictEq (cellAt r ic) id) = some j)
    (hdoc1 : ¬rowDocUrl headers (rows.getD j []) = "")
    (hdoc2 : ¬jsTrim (rowDocUrl headers (rows.getD j [])) = "")
    (hdocGone : linkGone st (rowDocUrl headers (rows.getD j [])))
    (hpdf1 : ¬rowPdfUrl headers (rows.getD j []) = "")
    (hpdf2 : ¬jsTrim (rowPdfUrl headers (rows.getD j [])) = "")
    (hpdfGone : linkGone st (rowPdfUrl headers (rows.getD j []))) :
    deleteInvoiceByIdFromData st (headers :: rows) id
      = ⟨⟨true, none,
          some "Google Doc already deleted or not found. PDF already deleted or not found."⟩,
         headers :: rows.eraseIdx j, st, true⟩ := by
  have hdocEq : tryTrashByUrl st (sheetDocUrl (headers :: rows) j) noteDocGone
      = (st, [noteDocGone]) :=
    tryTrashByUrl_fails st _ _ hdoc1 hdoc2 hdocGone
  have hpdfEq : tryTrashByUrl st (sheetPdfUrl (headers :: rows) j) notePdfGone
      = (st, [notePdfGone]) :=
    tryTrashByUrl_fails st _ _ hpdf1 hpdf2 hpdfGone
  unfold deleteInvoiceByIdFromData
  rw [if_neg (by simp [hid1, hid2])]
  rw [show ((headers :: rows).headD []) = headers from rfl, hic, Option.elim_some]
  rw [show (headers :: rows).drop 1 = rows from rfl, hfind, Option.elim_some]
  unfold deleteFoundRow deleteInvoiceFinish
  rw [hdocEq]
  dsimp only
  rw [hpdfEq]
  rfl

/-- C7 witness: the concrete stale-linked sheet against an empty drive. -/
theorem c7_delete_stale_links_witness :
    deleteInvoiceByIdFromData emptyDrive sheetStale (.str "u1")
      = ⟨⟨true, none,
          some "Google Doc already deleted or not found. PDF already deleted or not found."⟩,
         [[.str "ID", .str "Google Doc Link", .str "PDF Link"]], emptyDrive, true⟩ :=
  c7_delete_stale_links emptyDrive
    [.str "ID", .str "Google Doc Link", .str "PDF Link"]
    [[.str "u1",
      .str "https://docs.google.com/document/d/AAAAAAAAAAAAAAAAAAAAAAAAAB/edit",
      .str "https://drive.google.com/file/d/CCCCCCCCCCCCCCCCCCCCCCCCCD/view"]]
    (.str "u1") 0 0 (by decide) (by decide) (by decide) (by decide)
    (by decide) (by decide) (fun fid hfid => rfl)
    (by decide) (by decide) (fun fid hfid => rfl)

/-- Each fold step of the guarded item-write loop preserves the row length. -/
theorem foldl_length_inv {β : Type} (l : List β) (f : List JSVal → β → List JSVal)
    (h : ∀ acc b, (f acc b).length = acc.length) (init : List JSVal) :
    (l.foldl f init).length = init.length := by
  induction l generalizing init with
  | nil => rfl
  | cons b t ih => rw [List.foldl_cons, ih, h]

theorem foldl_congr_mem {α β : Type} (l : List β) (f g : α → β → α) (init : α)
    (h : ∀ (acc : α), ∀ b ∈ l, f acc b = g acc b) : l.foldl f init = l.foldl g init := by
  induction l generalizing init with
  | nil => rfl
  | cons b t ih =>
    rw [List.foldl_cons, List.foldl_cons, h init b (by simp)]
    exact ih _ (fun acc x hx => h acc x (by simp [hx]))

theorem setByHeader_length (headers : List String) (row : List JSVal)
    (key : String) (v : JSVal) :
    (setByHeader headers row key v).length = row.length := by
  unfold setByHeader
  cases indexMapLookup headers key with
  | none => rfl
  | some i => exact List.length_set row i v

theorem setByFirstIdx_length (headers : List String) (row : List JSVal)
    (key : String) (v : JSVal) :
    (setByFirstIdx headers row key v).length = row.length := by
  unfold setByFirstIdx
  cases jsIndexOf headers key with
  | none => rfl
  | some i => exact List.length_set row i v

theorem applyItemWrites_length (headers : List String) (fi capacity : Nat)
    (flat : List String) (r : List JSVal) :
    (applyItemWrites headers fi capacity flat r).length = r.length := by
  unfold applyItemWrites
  refine foldl_length_inv _ _ ?_ r
  intro acc j
  by_cases hj : fi + j < headers.length
  · rw [if_pos hj]
    exact List.length_set acc _ _
  · rw [if_neg hj]

/-- C10: both update-by-id row builders write only at column indices strictly
below the header width — the rebuilt row always has exactly `headers.length`
cells, however many item cells were submitted, and the invoice item-write loop
is insensitive to flattened cells whose target column falls at or beyond the
header width (they are silently dropped). -/
theorem c10_update_width_preserved :
    (∀ (H : HostOps) (maxRows : Nat) (headers : List String) (d : InvoiceFormData)
      (id du pu : String),
      (updateInvoiceFullRow H maxRows headers d id du pu).length = headers.length)
    ∧ (∀ (H : HostOps) (headers : List String) (existing : List JSVal)
        (cd : CreditNoteUpdateData) (du pu : String),
        (updateCreditNoteRow H headers existing cd du pu).length = headers.length)
    ∧ (∀ (headers : List String) (fi cap : Nat) (flat flat2 : List String)
        (r : List JSVal),
        (∀ j, j < cap → fi + j < headers.length → flat.getD j "" = flat2.getD j "") →
        applyItemWrites headers fi cap flat r = applyItemWrites headers fi cap flat2 r) := by
  refine ⟨?_, ?_, ?_⟩
  · intro H maxRows headers d id du pu
    unfold updateInvoiceFullRow
    cases jsIndexOf headers "Row 1 #" with
    | none =>
      simp only [setByHeader_length, List.length_replicate]
    | some fi =>
      rw [applyItemWrites_length]
      simp only [setByHeader_length, List.length_replicate]
  · intro H headers existing cd du pu
    unfold updateCreditNoteRow
    rw [setByFirstIdx_length, setByFirstIdx_length]
    rw [foldl_length_inv _ _ ?_ _]
    · exact List.length_mapIdx
    · intro acc i
      by_cases hi : 18 + i * 4 + 3 < headers.length
      · rw [if_pos hi]
        simp only [List.length_set]
      · rw [if_neg hi]
  · intro headers fi cap flat flat2 r h
    unfold applyItemWrites
    refine foldl_congr_mem _ _ _ r ?_
    intro acc j hj
    rw [List.mem_range] at hj
    by_cases hlt : fi + j < headers.length
    · rw [if_pos hlt, if_pos hlt, h j hj hlt]
    · rw [if_neg hlt, if_neg hlt]

/-- C10 witness: a header row of 22 columns with the item block starting at
column 21 keeps width 22 for an overlong item list, and the write loop ignores
flattened cells past the single in-range slot. -/
theorem c10_update_width_preserved_witness :
    (updateInvoiceFullRow plainHost 20 (invoiceHeaders 1) invData0 "i" "d" "p").length
        = (invoiceHeaders 1).length
    ∧ applyItemWrites ["h0", "h1"] 1 4 ["x", "y", "z", "w"]
        (List.replicate 2 (JSVal.str ""))
      = applyItemWrites ["h0", "h1"] 1 4 ["x", "q", "r", "s"]
        (List.replicate 2 (JSVal.str "")) :=
  ⟨c10_update_width_preserved.1 plainHost 20 (invoiceHeaders 1) invData0 "i" "d" "p",
   c10_update_width_preserved.2.2 ["h0", "h1"] 1 4 ["x", "y", "z", "w"]
     ["x", "q", "r", "s"] (List.replicate 2 (JSVal.str "")) (by decide)⟩

/-- C9: the invoice get-by-id compares the stored ID cell with strict `===`,
so requesting the string `"123"` against a stored number `123` yields the
not-found result; the credit-note get-by-id compares loosely (`==`, with
string conversion), so the same type-mismatched request returns the record. -/
theorem c9_id_comparison_asymmetry :
    strictEq (JSVal.num ⟨123, 1⟩) (JSVal.str "123") = false
    ∧ getInvoiceDataByIdFromData plainHost 20 sheetNum123Inv (.str "123") = none
    ∧ creditNoteIdMatches (JSVal.num ⟨123, 1⟩) (JSVal.str "123") = true
    ∧ getCreditNoteDataByIdFromData plainHost 20 sheetNum123CN (.str "123")
        = some cnRec123 := by
  refine ⟨by decide, by decide, by decide, by decide⟩

/-- C4 witness: the amended statement applied to a one-item list whose first
cell is `"zz"` — the create chunk comes back stamped `"1"`, the
`saveInvoiceData` chunk preserves `"zz"`. -/
theorem c4_stamping_order_witness :
    (processFormItemCells [["zz", "s", "p", "1", "2", "3"]]).getD 0 "" = natToStr 1
    ∧ (saveInvoiceItemCells [["zz", "s", "p", "1", "2", "3"]]).getD 0 "" = "zz" := by
  have h := c4_stamping_order [["zz", "s", "p", "1", "2", "3"]] (by decide) 0 (by decide)
  refine ⟨?_, ?_⟩
  · have := h.2.1
    simpa using this
  · have := h.2.2.2
    simpa using this

end FinDept
